import Mathlib

/-!
Verification of the `AnalystParser` financial-document extraction engine.

The TypeScript source is shallowly embedded: JavaScript numbers are modelled
as rationals (all arithmetic the parser performs on monetary values is exact
decimal arithmetic well inside the double-precision integer range), strings
as `String`/`List Char`, fallible operations as `Option`, and the regular
expressions the parser is built around as terms of a small regex AST `RE`
evaluated by a fuel-bounded backtracking matcher that follows ECMAScript
priority order (leftmost match, greedy quantifiers try longer first, lazy
quantifiers shorter first, alternation tries the left branch first).
-/

set_option allowUnsafeReducibility true in
attribute [semireducible] Rat.add Rat.mul Rat.sub Rat.inv Rat.ofScientific

namespace Analyst

/-- Bounding box of an OCR word, coordinates in pixels. -/
structure BoundingBox where
  x : ℚ
  y : ℚ
  width : ℚ
  height : ℚ
deriving DecidableEq, Repr

/-- One positioned word produced by the OCR collaborator. -/
structure OCRWord where
  text : String
  bbox : BoundingBox
  confidence : ℚ
  line : Int
  page : Int
deriving DecidableEq, Repr

/-- One cell of a reconstructed table. -/
structure TableCell where
  text : String
  bbox : BoundingBox
  row : Nat
  col : Int
  isHeader : Bool
deriving DecidableEq, Repr

/-- Classified type of a detected table. -/
inductive TableType where
  | balance_sheet
  | income_statement
  | cash_flow
  | unknown
deriving DecidableEq, Repr

/-- A table reconstructed from OCR word positions. -/
structure FinancialTable where
  title : String
  headers : List String
  rows : List (List TableCell)
  bbox : BoundingBox
  page : Int
  type : TableType
deriving DecidableEq, Repr

/-- A ranked extraction candidate / accepted field value. -/
structure ExtractionResult where
  value : ℚ
  source : String
  confidence : ℚ
  page : Int
  bbox : Option BoundingBox
  context : Option String
deriving DecidableEq, Repr

/-- Detected document scale: unit label and multiplier. -/
structure DocScale where
  unit : String
  multiplier : ℚ
deriving DecidableEq, Repr

/-! ### Character and string utilities (ECMAScript flavour) -/

/-- ASCII/Latin-1 portion of the ECMAScript `\s` (WhiteSpace ∪ LineTerminator)
character set; the documents handled contain no further Unicode spaces. -/
def jsWs (c : Char) : Bool :=
  c = ' ' || c = '\t' || c = '\n' || c = '\r' ||
  c = Char.ofNat 11 || c = Char.ofNat 12 || c = Char.ofNat 160

/-- ECMAScript LineTerminator characters relevant to the inputs handled. -/
def jsNewline (c : Char) : Bool := c = '\n' || c = '\r'

/-- ECMAScript `\w` word character, used for `\b` boundaries. -/
def jsWordChar (c : Char) : Bool :=
  c.isAlpha || c.isDigit || c = '_'

/-- `String.prototype.trim`: strips whitespace from both ends. -/
def jsTrim (s : List Char) : List Char :=
  ((s.dropWhile jsWs).reverse.dropWhile jsWs).reverse

/-- Character at an absolute index, if in range. -/
def charAt (s : List Char) (i : Nat) : Option Char :=
  (s.drop i).head?

/-- Whether `sub` occurs as a contiguous substring of `hay`
(`String.prototype.includes`). -/
def listContainsSub (hay sub : List Char) : Bool :=
  (List.range (hay.length + 1)).any fun i => sub.isPrefixOf (hay.drop i)

/-- `includes` on `String`. -/
def strContains (hay sub : String) : Bool :=
  listContainsSub hay.toList sub.toList

/-- Case-insensitive containment, for `/literal/i.test(s)` patterns. -/
def strContainsCI (hay sub : String) : Bool :=
  listContainsSub (hay.toList.map Char.toLower) (sub.toList.map Char.toLower)

/-- Split on `/\r?\n/` as `String.prototype.split` does: `\n` or `\r\n`
separate lines; a lone `\r` does not. -/
def splitLines (s : List Char) : List (List Char) :=
  go s [] where
  go : List Char → List Char → List (List Char)
    | [], acc => [acc.reverse]
    | '\r' :: '\n' :: rest, acc => acc.reverse :: go rest []
    | '\n' :: rest, acc => acc.reverse :: go rest []
    | c :: rest, acc => go rest (c :: acc)

/-- Collapse whitespace runs to single spaces (`replace(/\s+/g, ' ')`). -/
def squashWs (s : List Char) : List Char :=
  go s false where
  go : List Char → Bool → List Char
    | [], _ => []
    | c :: rest, prevWs =>
      if jsWs c then
        (if prevWs then [] else [' ']) ++ go rest true
      else c :: go rest false

/-! ### Regex AST and matcher

Each regular expression appearing in the source is transcribed to a term of
`RE`.  `runRE` enumerates the end positions (with group captures) of all ways
the expression can match starting at index `i`, in ECMAScript backtracking
priority order, so the head of the list is the match the JS engine commits to.
The `fuel` argument only bounds unbounded `star` unfolding; every iteration of
a star body is required to consume at least one character (as in ECMAScript,
which aborts empty-width loop iterations), so `s.length + 1` fuel is exact. -/
inductive RE where
  /-- matches the empty string -/
  | eps : RE
  /-- single character satisfying the predicate -/
  | chr : (Char → Bool) → RE
  /-- concatenation -/
  | cat : RE → RE → RE
  /-- alternation, left branch preferred -/
  | alt : RE → RE → RE
  /-- greedy Kleene star -/
  | star : RE → RE
  /-- counted repetition `{0,n}`, lazy when the flag is true -/
  | repN : Nat → Bool → RE → RE
  /-- capture group with its 1-based index -/
  | grp : Nat → RE → RE
  /-- negative lookahead -/
  | nla : RE → RE
  /-- `^` with the `m` flag: start of string or after a line terminator -/
  | bol : RE
  /-- `$` with the `m` flag: end of string or before a line terminator -/
  | eol : RE
  /-- `^` without `m`: start of string -/
  | bos : RE
  /-- `$` without `m`: end of string -/
  | eos : RE
  /-- `\b` word boundary -/
  | wordB : RE

/-- Captured groups: (group index, start, end) triples. -/
abbrev Caps := List (Nat × Nat × Nat)

/-- Greedy Kleene-star loop: `step` matches one body iteration (which must
consume at least one character, as ECMAScript aborts empty-width loop
iterations), `fuel` bounds the number of iterations; more iterations are
tried first (greedy priority). -/
def starLoop (step : Nat → List (Nat × Caps)) : Nat → Nat → List (Nat × Caps)
  | 0, i => [(i, [])]
  | fuel + 1, i =>
    ((step i).flatMap fun x =>
      if i < x.1 then
        (starLoop step fuel x.1).map fun y => (y.1, x.2 ++ y.2)
      else []) ++ [(i, [])]

/-- Counted-repetition loop `{0,n}`: lazy tries fewer iterations first,
greedy more. -/
def repNloop (step : Nat → List (Nat × Caps)) : Nat → Bool → Nat → List (Nat × Caps)
  | 0, _, i => [(i, [])]
  | n + 1, lazy, i =>
    let deeper :=
      (step i).flatMap fun x =>
        if i < x.1 then
          (repNloop step n lazy x.1).map fun y => (y.1, x.2 ++ y.2)
        else []
    if lazy then (i, []) :: deeper else deeper ++ [(i, [])]

/-- All matches of `r` in `s` starting at `i`, as (end position, captures),
in ECMAScript priority order.  `fuel` bounds unbounded-star unfolding; since
each star iteration consumes at least one character, `s.length + 1` fuel is
exact. -/
def runRE (s : List Char) (fuel : Nat) : RE → Nat → List (Nat × Caps)
  | RE.eps, i => [(i, [])]
  | RE.chr p, i =>
    match charAt s i with
    | some c => if p c then [(i + 1, [])] else []
    | none => []
  | RE.cat a b, i =>
    (runRE s fuel a i).flatMap fun x =>
      (runRE s fuel b x.1).map fun y => (y.1, x.2 ++ y.2)
  | RE.alt a b, i => runRE s fuel a i ++ runRE s fuel b i
  | RE.star r, i => starLoop (runRE s fuel r) fuel i
  | RE.repN n lazy r, i => repNloop (runRE s fuel r) n lazy i
  | RE.grp g r, i =>
    (runRE s fuel r i).map fun x => (x.1, (g, i, x.1) :: x.2)
  | RE.nla r, i =>
    if (runRE s fuel r i).isEmpty then [(i, [])] else []
  | RE.bol, i =>
    if i = 0 then [(i, [])]
    else match charAt s (i - 1) with
      | some c => if jsNewline c then [(i, [])] else []
      | none => []
  | RE.eol, i =>
    if i = s.length then [(i, [])]
    else match charAt s i with
      | some c => if jsNewline c then [(i, [])] else []
      | none => []
  | RE.bos, i => if i = 0 then [(i, [])] else []
  | RE.eos, i => if i = s.length then [(i, [])] else []
  | RE.wordB, i =>
    let prev := match charAt s (i - 1) with
      | some c => i ≠ 0 && jsWordChar c
      | none => false
    let cur := match charAt s i with
      | some c => jsWordChar c
      | none => false
    if prev ≠ cur then [(i, [])] else []

/-- `regexp.test(s)`: does `r` match anywhere in `s`? -/
def reTestL (r : RE) (s : List Char) : Bool :=
  (List.range (s.length + 1)).any fun i => !(runRE s (s.length + 1) r i).isEmpty

/-- `regexp.test` on `String`. -/
def reTest (r : RE) (s : String) : Bool := reTestL r s.toList

/-- First (leftmost, highest-priority) match: start, end, captures. -/
def reFirstL (r : RE) (s : List Char) : Option (Nat × Nat × Caps) :=
  go (List.range (s.length + 1)) where
  go : List Nat → Option (Nat × Nat × Caps)
    | [] => none
    | i :: rest =>
      match runRE s (s.length + 1) r i with
      | [] => go rest
      | x :: _ => some (i, x.1, x.2)

/-- Text of capture group `g` of the first match (`s.match(r)[g]`), `none`
when the regex does not match or the group took part in no alternative. -/
def reCaptureL (g : Nat) (r : RE) (s : List Char) : Option (List Char) :=
  match reFirstL r s with
  | none => none
  | some (_, _, caps) =>
    match caps.find? (fun t => t.1 = g) with
    | none => none
    | some (_, st, en) => some ((s.drop st).take (en - st))

/-- Capture group `g` of the first match, on `String`. -/
def reCapture (g : Nat) (r : RE) (s : String) : Option String :=
  (reCaptureL g r s.toList).map fun l => String.mk l

/-! ### Regex construction helpers -/

/-- Concatenation of a list of regexes. -/
def reCat (l : List RE) : RE := l.foldr RE.cat RE.eps

/-- Case-insensitive literal (the `i` flag). -/
def litCI (t : String) : RE :=
  reCat (t.toList.map fun c => RE.chr (fun d => d.toLower = c.toLower))

/-- Case-sensitive literal. -/
def litCS (t : String) : RE :=
  reCat (t.toList.map fun c => RE.chr (fun d => d = c))

/-- Single character from an explicit list (case-sensitive class). -/
def reCls (l : List Char) : RE := RE.chr fun c => l.contains c

/-- `r?` (greedy option). -/
def reOpt (r : RE) : RE := RE.alt r RE.eps

/-- `r+` (greedy). -/
def rePlus (r : RE) : RE := RE.cat r (RE.star r)

/-- `\s*` -/
def reWsS : RE := RE.star (RE.chr jsWs)

/-- `\s+` -/
def reWsP : RE := rePlus (RE.chr jsWs)

/-- `\d` -/
def reDigit : RE := RE.chr Char.isDigit

/-- `[\s\S]` — any character. -/
def reAny : RE := RE.chr fun _ => true

/-- `.` — any character except a line terminator (no `s` flag). -/
def reDot : RE := RE.chr fun c => !jsNewline c

/-- The apostrophe character (appears in several source character classes). -/
def apos : Char := Char.ofNat 39

/-! ### `parseFloat` and `parseNumber` -/

/-- Value of a decimal digit string. -/
def digitsToNat (l : List Char) : Nat :=
  l.foldl (fun acc c => 10 * acc + (c.toNat - 48)) 0

/-- `10 ^ n` as a rational. -/
def pow10 (n : Nat) : ℚ := (10 : ℚ) ^ n

/-- `10 ^ k` for a signed exponent. -/
def qpow10 (k : Int) : ℚ :=
  if 0 ≤ k then pow10 k.toNat else 1 / pow10 (-k).toNat

/-- Exponent part of a float literal: optional sign then digits; an exponent
marker not followed by digits contributes nothing (as in `parseFloat`). -/
def expOf (s : List Char) : Int :=
  let (sgn, r) : Int × List Char :=
    match s with
    | '-' :: r => (-1, r)
    | '+' :: r => (1, r)
    | _ => (1, s)
  let ds := r.takeWhile Char.isDigit
  if ds.isEmpty then 0 else sgn * (digitsToNat ds : Int)

/-- Optional sign of a float literal: the signed unit and the remainder. -/
def floatSign (t : List Char) : ℚ × List Char :=
  match t with
  | '-' :: r => (-1, r)
  | '+' :: r => (1, r)
  | _ => (1, t)

/-- Optional fraction of a float literal and the remainder after it. -/
def floatFrac (t2 : List Char) : List Char × List Char :=
  match t2 with
  | '.' :: r => (r.takeWhile Char.isDigit, r.dropWhile Char.isDigit)
  | _ => ([], t2)

/-- Optional exponent of a float literal. -/
def floatExp (t3 : List Char) : Int :=
  match t3 with
  | 'e' :: r => expOf r
  | 'E' :: r => expOf r
  | _ => 0

/-- `parseFloat`: skip leading whitespace, optional sign, integer digits,
optional fraction, optional exponent; parses the longest valid prefix and
returns `none` when no digits are found (NaN).  The `Infinity` literal never
occurs in the numeral tokens this parser builds and is omitted. -/
def parseJsFloat (s : List Char) : Option ℚ :=
  let t := s.dropWhile jsWs
  let sgn := (floatSign t).1
  let t1 := (floatSign t).2
  let intPart := t1.takeWhile Char.isDigit
  let t2 := t1.dropWhile Char.isDigit
  let fracPart := (floatFrac t2).1
  let t3 := (floatFrac t2).2
  if intPart.isEmpty && fracPart.isEmpty then none
  else
    let mant : ℚ := (digitsToNat intPart : ℚ) + (digitsToNat fracPart : ℚ) / pow10 fracPart.length
    some (sgn * mant * qpow10 (floatExp t3))

/-- The cleaning step of `parseNumber`: `replace(/[\$,]/g, '')`,
`replace(/[()]/g, '')`, `trim()`. -/
def cleanNumberText (text : String) : List Char :=
  jsTrim (text.toList.filter fun c => !(c = '$' || c = ',' || c = '(' || c = ')'))

/-- The explicit-suffix step of `parseNumber`: the multiplier (from a
trailing B/M/K, case-insensitive, else the document scale) and the numeral
text with the suffix removed. -/
def suffixStep (scale : DocScale) (cleaned : List Char) : ℚ × List Char :=
  match cleaned.getLast? with
  | some c =>
    if c.toLower = 'b' then (1000000000, cleaned.dropLast)
    else if c.toLower = 'm' then (1000000, cleaned.dropLast)
    else if c.toLower = 'k' then (1000, cleaned.dropLast)
    else (scale.multiplier, cleaned)
  | none => (scale.multiplier, cleaned)

/-- `AnalystParser.parseNumber`: parentheses signal an accounting negative;
currency symbols, separators and parentheses are stripped; a trailing B/M/K
(case-insensitive) fixes the multiplier, otherwise the document scale
applies; zero or unparseable numerals are rejected. -/
def parseNumber (scale : DocScale) (text : String) : Option ℚ :=
  let cs := text.toList
  let hasParens := cs.contains '(' && cs.contains ')'
  let cleaned := cleanNumberText text
  let multiplier := (suffixStep scale cleaned).1
  let cleaned2 := (suffixStep scale cleaned).2
  match parseJsFloat cleaned2 with
  | none => none
  | some n =>
    if n = 0 then none
    else some (if hasParens then -(n * multiplier) else n * multiplier)

/-! ### `detectDocumentScale` -/

/-- `/\((?:in|except per share amounts in)\s+millions\)/i` -/
def scaleMillionsRE : RE :=
  reCat [reCls ['('], RE.alt (litCI "in") (litCI "except per share amounts in"),
         reWsP, litCI "millions", reCls [')']]

/-- `/\(in\s+thousands\)/i` -/
def scaleThousandsRE : RE :=
  reCat [reCls ['('], litCI "in", reWsP, litCI "thousands", reCls [')']]

/-- `/\(in\s+billions\)/i` -/
def scaleBillionsRE : RE :=
  reCat [reCls ['('], litCI "in", reWsP, litCI "billions", reCls [')']]

/-- `/amounts in millions/i` -/
def scaleMillions2RE : RE := litCI "amounts in millions"

/-- `AnalystParser.detectDocumentScale`: first matching scale declaration
wins; with no match the field keeps its initial value millions / 1e6. -/
def detectDocumentScale (raw : String) : DocScale :=
  if reTest scaleMillionsRE raw then { unit := "millions", multiplier := 1000000 }
  else if reTest scaleThousandsRE raw then { unit := "thousands", multiplier := 1000 }
  else if reTest scaleBillionsRE raw then { unit := "billions", multiplier := 1000000000 }
  else if reTest scaleMillions2RE raw then { unit := "millions", multiplier := 1000000 }
  else { unit := "millions", multiplier := 1000000 }

/-! ### The same-line numeral pattern of `extractFromText`

`/[\$\(]?\s*([\d,]+(?:\.[\d]+)?)\s*([BMK])?/g` — transcribed as a scanner
returning, for each successive leftmost match, group 1 (the numeral) and
group 2 (the suffix).  The pattern is deterministic: every quantifier's
greedy choice is forced because no later element can consume the characters
an earlier one takes. -/

/-- `[\d,]` -/
def isDigitComma (c : Char) : Bool := c.isDigit || c = ','

/-- `[\$\(]?` at position `i`: consumed length and the remaining text. -/
def numTokenAfterPrefix (s : List Char) (i : Nat) : Nat × List Char :=
  match s.drop i with
  | c :: r => if c = '$' || c = '(' then (1, r) else (0, s.drop i)
  | [] => (0, s.drop i)

/-- Remaining text after the leading `\s*`. -/
def numTokenR2 (s : List Char) (i : Nat) : List Char :=
  (numTokenAfterPrefix s i).2.dropWhile jsWs

/-- The `[\d,]+` run. -/
def numTokenDigits (s : List Char) (i : Nat) : List Char :=
  (numTokenR2 s i).takeWhile isDigitComma

/-- Remaining text after the digit run. -/
def numTokenR3 (s : List Char) (i : Nat) : List Char :=
  (numTokenR2 s i).dropWhile isDigitComma

/-- The `(?:\.[\d]+)?` fraction, when a dot directly followed by a digit
comes next. -/
def numTokenFra (s : List Char) (i : Nat) : List Char :=
  match numTokenR3 s i with
  | '.' :: d :: dr =>
    if d.isDigit then '.' :: (d :: dr).takeWhile Char.isDigit else []
  | _ => []

/-- Remaining text after the optional fraction. -/
def numTokenR4 (s : List Char) (i : Nat) : List Char :=
  match numTokenR3 s i with
  | '.' :: d :: dr =>
    if d.isDigit then (d :: dr).dropWhile Char.isDigit else numTokenR3 s i
  | _ => numTokenR3 s i

/-- The `([BMK])?` capture after the trailing `\s*`, with its length. -/
def numTokenSuf (s : List Char) (i : Nat) : Option Char × Nat :=
  match (numTokenR4 s i).dropWhile jsWs with
  | c :: _ => if c = 'B' || c = 'M' || c = 'K' then (some c, 1) else (none, 0)
  | [] => (none, 0)

/-- A match of the numeral pattern anchored at index `i`: returns the
total matched length, group 1 and group 2.  Fails when the mandatory
`[\d,]+` run is empty. -/
def numTokenAt (s : List Char) (i : Nat) : Option (Nat × List Char × Option Char) :=
  if (numTokenDigits s i).isEmpty then none
  else
    some ((numTokenAfterPrefix s i).1 +
            ((numTokenAfterPrefix s i).2.takeWhile jsWs).length +
            (numTokenDigits s i).length + (numTokenFra s i).length +
            ((numTokenR4 s i).takeWhile jsWs).length + (numTokenSuf s i).2,
          numTokenDigits s i ++ numTokenFra s i, (numTokenSuf s i).1)

/-- All matches of the numeral pattern, left to right (the `g` flag). -/
def scanNumberTokens (s : List Char) : List (List Char × Option Char) :=
  go 0 (s.length + 1) where
  go : Nat → Nat → List (List Char × Option Char)
    | _, 0 => []
    | i, fuel + 1 =>
      match numTokenAt s i with
      | some (len, num, suf) => (num, suf) :: go (i + len) fuel
      | none =>
        if i < s.length then go (i + 1) fuel else []

/-! ### `Array.prototype.sort`

Modelled as a stable insertion sort: each later element is inserted into the
already sorted prefix by comparing it (as the comparator's first argument)
against placed elements from the right, matching the stable order ECMAScript
specifies for consistent comparators and fixing one concrete behaviour for
inconsistent ones (the engine-level result is implementation-defined there). -/

/-- Insert `x` into `l`, moving it left past every element `y` (scanning from
the right) while `cmp x y < 0`. -/
def jsInsert (cmp : α → α → ℚ) (x : α) (l : List α) : List α :=
  let r := l.reverse
  let skipped := r.takeWhile fun y => cmp x y < 0
  let rest := r.dropWhile fun y => cmp x y < 0
  rest.reverse ++ x :: skipped.reverse

/-- Stable comparator sort. -/
def jsSort (cmp : α → α → ℚ) (l : List α) : List α :=
  l.foldl (fun acc x => jsInsert cmp x acc) []

/-! ### `extractFromText` -/

/-- One consolidated-section delimiter:
`CONSOLIDATED\s+<title>([\s\S]{0,10000}?)(?:See|Notes|The accompanying|CONSOLIDATED|$)`
with the `i` flag only, so the final `$` is end-of-string. -/
def consolidatedSectionRE (title : RE) : RE :=
  reCat [litCI "CONSOLIDATED", reWsP, title,
         RE.grp 1 (RE.repN 10000 true reAny),
         RE.alt (litCI "See")
           (RE.alt (litCI "Notes")
             (RE.alt (litCI "The accompanying")
               (RE.alt (litCI "CONSOLIDATED") RE.eos)))]

/-- `/CONSOLIDATED\s+BALANCE\s+SHEETS?(...)/i` -/
def consolidatedBalanceRE : RE :=
  consolidatedSectionRE (reCat [litCI "BALANCE", reWsP, litCI "SHEET", reOpt (litCI "S")])

/-- `/CONSOLIDATED\s+STATEMENTS?\s+OF\s+(?:INCOME|OPERATIONS)(...)/i` -/
def consolidatedIncomeRE : RE :=
  consolidatedSectionRE
    (reCat [litCI "STATEMENT", reOpt (litCI "S"), reWsP, litCI "OF", reWsP,
            RE.alt (litCI "INCOME") (litCI "OPERATIONS")])

/-- `/CONSOLIDATED\s+STATEMENTS?\s+OF\s+CASH\s+FLOWS?(...)/i` -/
def consolidatedCashRE : RE :=
  consolidatedSectionRE
    (reCat [litCI "STATEMENT", reOpt (litCI "S"), reWsP, litCI "OF", reWsP,
            litCI "CASH", reWsP, litCI "FLOW", reOpt (litCI "S")])

/-- Concatenation of the captured consolidated-statement sections.  An empty
capture is skipped because `match[1]` is falsy for the empty string. -/
def consolidatedTextOf (raw : String) : String :=
  [consolidatedBalanceRE, consolidatedIncomeRE, consolidatedCashRE].foldl
    (fun acc p =>
      match reCapture 1 p raw with
      | some t => if t = "" then acc else acc ++ t ++ "\n\n"
      | none => acc) ""

/-- `/\t| {3,}/.test(line)`: tab or a run of three-plus spaces. -/
def hasTableSpacing (line : List Char) : Bool :=
  listContainsSub line ['\t'] || listContainsSub line [' ', ' ', ' ']

/-- The rebuilt token handed to `parseNumber`: group 1 plus, when present,
group 2 (`let parseText = numberText; if (suffix) parseText += suffix`). -/
def rebuiltToken (ts : List Char × Option Char) : String :=
  String.mk (ts.1 ++ (match ts.2 with | some c => [c] | none => []))

/-- One same-line candidate of `extractFromText`, for one scanned numeral
token of a line that matched a label pattern. -/
def mkSameLineCandidate (scale : DocScale) (isCons : Bool) (minValue maxValue : ℚ)
    (line : List Char) (ts : List Char × Option Char) : Option ExtractionResult :=
  match parseNumber scale (rebuiltToken ts) with
  | some value =>
    if minValue ≤ value ∧ value ≤ maxValue then
      some { value := value,
             source := if isCons then "Consolidated statement (same line)"
                       else "Text extraction (same line)",
             confidence := (if isCons then 90 else 80) +
               (if 10000000000 < value then 5 else 0) +
               (if hasTableSpacing line then 5 else 0),
             page := 0, bbox := none,
             context := some (String.mk (line.take 200)) }
    else none
  | none => none

/-- The next-line fallback candidate of `extractFromText`. -/
def mkNextLineCandidate (scale : DocScale) (isCons : Bool) (minValue maxValue : ℚ)
    (line nextLine : List Char) (ts : List Char × Option Char) : List ExtractionResult :=
  match parseNumber scale (rebuiltToken ts) with
  | some value =>
    if minValue ≤ value ∧ value ≤ maxValue then
      [{ value := value,
         source := if isCons then "Consolidated statement (next line)"
                   else "Text extraction (next line)",
         confidence := (if isCons then 75 else 65) +
           (if 10000000000 < value then 5 else 0),
         page := 0, bbox := none,
         context := some (String.mk ((line ++ ' ' :: nextLine).take 200)) }]
    else []
  | none => []

/-- Candidates harvested from one line for one matching label pattern, from
the same-line numerals if any exist, else from the first numeral of the next
line. -/
def lineCandidates (scale : DocScale) (isCons : Bool) (minValue maxValue : ℚ)
    (line nextLine : List Char) : List ExtractionResult :=
  let toks := scanNumberTokens line
  if !toks.isEmpty then
    toks.filterMap (mkSameLineCandidate scale isCons minValue maxValue line)
  else
    match (scanNumberTokens nextLine).head? with
    | some ts => mkNextLineCandidate scale isCons minValue maxValue line nextLine ts
    | none => []

/-- Candidates of one pass over one search text: line by line, inner loop
over the label patterns. -/
def textPassResults (scale : DocScale) (isCons : Bool) (patterns : List RE)
    (minValue maxValue : ℚ) (text : String) : List ExtractionResult :=
  let lines := splitLines text.toList
  (List.range lines.length).flatMap fun lineIdx =>
    let line := lines.getD lineIdx []
    let nextLine := lines.getD (lineIdx + 1) []
    patterns.flatMap fun p =>
      if reTestL p line then lineCandidates scale isCons minValue maxValue line nextLine
      else []

/-- The search loop of `extractFromText` over the candidate texts, with its
two early exits after a pass over the consolidated section. -/
def textSearchLoop (scale : DocScale) (patterns : List RE) (minValue maxValue : ℚ)
    (consolidatedText : String) : List String → List ExtractionResult → List ExtractionResult
  | [], results => results
  | st :: rest, results =>
    let isCons := st = consolidatedText
    let results2 := results ++ textPassResults scale isCons patterns minValue maxValue st
    if isCons ∧ results2 ≠ [] then
      let sameLineResults := results2.filter fun r =>
        strContains r.source "same line" && strContains r.source "Consolidated"
      if sameLineResults ≠ [] then sameLineResults else results2
    else textSearchLoop scale patterns minValue maxValue consolidatedText rest results2

/-- `AnalystParser.extractFromText`: search the consolidated-statement
sections first when more than 500 characters of them were captured, else the
full raw text. -/
def extractFromText (scale : DocScale) (raw : String) (patterns : List RE)
    (minValue maxValue : ℚ) : List ExtractionResult :=
  let consolidatedText := consolidatedTextOf raw
  let searchTexts := if 500 < consolidatedText.length then [consolidatedText, raw] else [raw]
  textSearchLoop scale patterns minValue maxValue consolidatedText searchTexts []

/-! ### `extractFromTables` -/

/-- `/^[\$\(]?[\d,]+(?:\.[\d]+)?\s*[BMK\)]?$/` -/
def tableCellShape1RE : RE :=
  reCat [RE.bos, reOpt (reCls ['$', '(']), rePlus (RE.chr isDigitComma),
         reOpt (reCat [reCls ['.'], rePlus reDigit]), reWsS,
         reOpt (reCls ['B', 'M', 'K', ')']), RE.eos]

/-- `/^\(?[\d,]+(?:\.[\d]+)?\)?\s*[BMK]?$/` -/
def tableCellShape2RE : RE :=
  reCat [RE.bos, reOpt (reCls ['(']), rePlus (RE.chr isDigitComma),
         reOpt (reCat [reCls ['.'], rePlus reDigit]), reOpt (reCls [')']), reWsS,
         reOpt (reCls ['B', 'M', 'K']), RE.eos]

/-- `AnalystParser.extractFromTables`: per row, find the first cell matching
a label pattern, then take the leftmost numeric cell to its right. -/
def extractFromTables (scale : DocScale) (tables : List FinancialTable)
    (patterns : List RE) : List ExtractionResult :=
  tables.flatMap fun table =>
    table.rows.flatMap fun rowCells =>
      let sortedCells := jsSort (fun a b => ((a.col - b.col : Int) : ℚ)) rowCells
      match sortedCells.findIdx? (fun cell => patterns.any fun p =>
          reTestL p (jsTrim cell.text.toList)) with
      | none => []
      | some labelCellIndex =>
        match sortedCells.get? labelCellIndex with
        | none => []
        | some labelCell =>
          let numericCells := (sortedCells.drop (labelCellIndex + 1)).filter fun cell =>
            let text := jsTrim cell.text.toList
            reTestL tableCellShape1RE text || reTestL tableCellShape2RE text
          if numericCells.isEmpty then []
          else
            let sortedNums := jsSort (fun a b => ((a.col - b.col : Int) : ℚ)) numericCells
            match sortedNums.head? with
            | none => []
            | some numCell =>
              match parseNumber scale numCell.text with
              | none => []
              | some value =>
                let confidence : ℚ :=
                  (if numericCells.length = 1 then 95 else 90) +
                  (if numCell.col - labelCell.col < 3 then 3 else 0)
                [{ value := value,
                   source := "Table: " ++ (if table.title = "" then "Unnamed" else table.title)
                     ++ " (page " ++ toString table.page ++ ", row "
                     ++ toString (match rowCells.head? with
                                  | some c => if c.row = 0 then 0 else c.row
                                  | none => 0) ++ ")",
                   confidence := confidence, page := table.page,
                   bbox := some numCell.bbox,
                   context := some (labelCell.text ++ " | " ++ numCell.text) }]

/-! ### `extractField` -/

/-- `/revenue|assets|liabilities|equity/.test(fieldName)` -/
def isCriticalField (fieldName : String) : Bool :=
  strContains fieldName "revenue" || strContains fieldName "assets" ||
  strContains fieldName "liabilities" || strContains fieldName "equity"

/-- The comparator used for critical fields: order by value descending when
the two values differ by more than half of the first argument's value,
otherwise by confidence descending. -/
def criticalCompare (a b : ExtractionResult) : ℚ :=
  let valueDiff := b.value - a.value
  if a.value * (1 / 2) < |valueDiff| then valueDiff
  else b.confidence - a.confidence

/-- The comparator used for non-critical fields: confidence descending. -/
def confidenceCompare (a b : ExtractionResult) : ℚ :=
  b.confidence - a.confidence

/-- `AnalystParser.extractField`: pool table candidates (first) and text
candidates, rank, and accept the top one. -/
def extractField (scale : DocScale) (tables : List FinancialTable) (raw : String)
    (fieldName : String) (patterns : List RE) (minValue maxValue : ℚ) :
    Option ExtractionResult :=
  let candidates :=
    (if tables ≠ [] then extractFromTables scale tables patterns else []) ++
    extractFromText scale raw patterns minValue maxValue
  if candidates.isEmpty then none
  else
    let sorted :=
      if isCriticalField fieldName ∧ 1 < candidates.length then
        jsSort criticalCompare candidates
      else jsSort confidenceCompare candidates
    sorted.head?

/-! ### Table detection from OCR positions -/

/-- Keys of a JS `Map` in insertion order (first occurrence). -/
def distinctKeys (l : List Int) : List Int :=
  l.foldl (fun acc k => if acc.contains k then acc else acc ++ [k]) []

/-- `page → line → words` buckets, preserving `Map` insertion order and the
original word order within each line. -/
def pagesOf (words : List OCRWord) : List (Int × List (Int × List OCRWord)) :=
  (distinctKeys (words.map (·.page))).map fun p =>
    let pws := words.filter (·.page = p)
    (p, (distinctKeys (pws.map (·.line))).map fun ln => (ln, pws.filter (·.line = ln)))

/-- The numeric-token shape of `findTableRegions`:
`/^[\$\(]?[\d,]+[\.\d]*[BMK\)]?$/` -/
def denseNumberRE : RE :=
  reCat [RE.bos, reOpt (reCls ['$', '(']), rePlus (RE.chr isDigitComma),
         RE.star (RE.chr fun c => c = '.' || c.isDigit),
         reOpt (reCls ['B', 'M', 'K', ')']), RE.eos]

/-- `AnalystParser.detectColumnPositions`: greedy clustering of sorted
x-positions with a 20px tolerance. -/
def detectColumnPositions (xPositions : List ℚ) : List ℚ :=
  xPositions.foldl
    (fun columns x =>
      match columns.getLast? with
      | none => columns ++ [x]
      | some lastCol => if 20 < x - lastCol then columns ++ [x] else columns) []

/-- `AnalystParser.assignColumn`: nearest column within 30px, else a new
trailing column index. -/
def assignColumn (x : ℚ) (columns : List ℚ) : Int :=
  match columns.findIdx? (fun c => |x - c| < 30) with
  | some i => (i : Int)
  | none => (columns.length : Int)

/-- `AnalystParser.calculateBoundingBox`. -/
def calculateBoundingBox (boxes : List BoundingBox) : BoundingBox :=
  match boxes with
  | [] => { x := 0, y := 0, width := 0, height := 0 }
  | b :: rest =>
    let minX := (rest.map (·.x)).foldl min b.x
    let minY := (rest.map (·.y)).foldl min b.y
    let maxX := (rest.map fun c => c.x + c.width).foldl max (b.x + b.width)
    let maxY := (rest.map fun c => c.y + c.height).foldl max (b.y + b.height)
    { x := minX, y := minY, width := maxX - minX, height := maxY - minY }

/-- `/balance.*sheet/i` -/
def titleBalanceRE : RE := reCat [litCI "balance", RE.star reDot, litCI "sheet"]

/-- `/income|operations/i` -/
def titleIncomeRE : RE := RE.alt (litCI "income") (litCI "operations")

/-- `/cash.*flow/i` -/
def titleCashRE : RE := reCat [litCI "cash", RE.star reDot, litCI "flow"]

/-- `AnalystParser.parseTableFromWords` (the `startLine` argument is unused
in the source as well). -/
def parseTableFromWords (tableWords : List (List OCRWord)) (_startLine : Int)
    (pageNum : Int) : FinancialTable :=
  let allX := jsSort (fun a b => a - b) ((tableWords.flatten).map (·.bbox.x))
  let columns := detectColumnPositions allX
  let rows : List (List TableCell) :=
    (List.range tableWords.length).map fun i =>
      (tableWords.getD i []).map fun word =>
        { text := word.text, bbox := word.bbox, row := i,
          col := assignColumn word.bbox.x columns, isHeader := i = 0 }
  let title :=
    match tableWords.head? with
    | some lineWords => String.intercalate " " (lineWords.map (·.text))
    | none => ""
  let ttype : TableType :=
    if tableWords.isEmpty then TableType.unknown
    else if reTest titleBalanceRE title then TableType.balance_sheet
    else if reTest titleIncomeRE title then TableType.income_statement
    else if reTest titleCashRE title then TableType.cash_flow
    else TableType.unknown
  { title := title,
    headers := (rows.headD []).map (·.text),
    rows := rows,
    bbox := calculateBoundingBox ((tableWords.flatten).map (·.bbox)),
    page := pageNum,
    type := ttype }

/-- `AnalystParser.findTableRegions`: a run of consecutive numeric-dense
lines (two or more numeric tokens) of length at least three, terminated by a
non-dense line, becomes a table.  A run still open when the lines end is
dropped, as in the source. -/
def findTableRegions (lines : List (Int × List OCRWord)) (pageNum : Int) :
    List FinancialTable :=
  let lineNumbers := jsSort (fun a b => ((a - b : Int) : ℚ)) (lines.map (·.1))
  go lineNumbers none where
  go : List Int → Option (List (List OCRWord) × Int) → List FinancialTable
    | [], _ => []
    | lineNum :: rest, currentTable =>
      let wordsOfLine := match lines.find? (fun e => e.1 = lineNum) with
        | some e => e.2
        | none => []
      let numbers := wordsOfLine.filter fun w => reTest denseNumberRE w.text
      if 2 ≤ numbers.length then
        match currentTable with
        | none => go rest (some ([wordsOfLine], lineNum))
        | some (rows, tableStart) => go rest (some (rows ++ [wordsOfLine], tableStart))
      else
        match currentTable with
        | some (rows, tableStart) =>
          if 3 ≤ rows.length then
            parseTableFromWords rows tableStart pageNum :: go rest none
          else go rest none
        | none => go rest none

/-- `AnalystParser.detectTables`. -/
def detectTables (words : List OCRWord) : List FinancialTable :=
  (pagesOf words).flatMap fun pg => findTableRegions pg.2 pg.1

/-! ### Field label patterns (`extractFinancials`) -/

/-- `[A-Z]` under the `i` flag (ASCII letter). -/
def reLetter : RE := RE.chr Char.isAlpha

/-- Patterns for `total_assets`. -/
def totalAssetsPatterns : List RE :=
  [reCat [RE.bol, litCI "Total", reWsP, litCI "assets", reWsS, RE.eol],
   reCat [litCI "Total", reWsP, litCI "assets", reWsS, reCls ['\n']],
   reCat [RE.bol, litCI "Total", reWsP, litCI "assets", reWsP, reCls ['$']]]

/-- Patterns for `cash`. -/
def cashPatterns : List RE :=
  [reCat [litCI "Cash", reWsP, litCI "and", reWsP, litCI "cash", reWsP, litCI "equivalents"],
   reCat [RE.bos, litCI "Cash", RE.wordB]]

/-- Patterns for `marketable_securities`. -/
def marketableSecuritiesPatterns : List RE :=
  [reCat [litCI "Marketable", reWsP, litCI "securities"],
   reCat [litCI "Short-term", reWsP, litCI "investments"]]

/-- Patterns for `accounts_receivable`. -/
def accountsReceivablePatterns : List RE :=
  [reCat [litCI "Accounts", reWsP, litCI "receivable"],
   reCat [litCI "Trade", reWsP, litCI "receivables"]]

/-- Patterns for `property_equipment`. -/
def propertyEquipmentPatterns : List RE :=
  [reCat [litCI "Property", reWsP, litCI "and", reWsP, litCI "equipment",
          reOpt (reCls [',']), reWsP, litCI "net"],
   reCat [litCI "Property", reOpt (reCls [',']), reWsP, litCI "plant", reWsP,
          litCI "and", reWsP, litCI "equipment"]]

/-- Patterns for `goodwill`. -/
def goodwillPatterns : List RE := [litCI "Goodwill"]

/-- Patterns for `total_liabilities`. -/
def totalLiabilitiesPatterns : List RE :=
  [reCat [RE.bol, litCI "Total", reWsP, litCI "liabilities", reWsS, RE.eol],
   reCat [RE.bol, litCI "Total", reWsP, litCI "liabilities", reWsS, reCls ['\n']],
   reCat [litCI "Total", reWsP, litCI "liabilities",
          RE.nla (reCat [reWsP, litCI "and", reWsP,
                         RE.alt (litCI "stockholders") (litCI "shareholders")])]]

/-- Patterns for `long_term_debt`. -/
def longTermDebtPatterns : List RE :=
  [reCat [litCI "Long-term", reWsP, litCI "debt"],
   reCat [litCI "Long", reWsP, litCI "term", reWsP, litCI "debt"]]

/-- Patterns for `accounts_payable`. -/
def accountsPayablePatterns : List RE :=
  [reCat [litCI "Accounts", reWsP, litCI "payable"]]

/-- Patterns for `total_equity`. -/
def totalEquityPatterns : List RE :=
  [reCat [RE.bol, litCI "Total", reWsP,
          RE.alt (reCat [litCI "stockholders", reCls [apos]])
                 (reCat [litCI "shareholders", reCls [apos]]),
          reWsP, litCI "equity", reWsS, RE.eol],
   reCat [litCI "Total", reWsP,
          RE.alt (reCat [litCI "stockholders", reCls [apos]])
                 (reCat [litCI "shareholders", reCls [apos]]),
          reWsP, litCI "equity", reWsS, reCls ['\n']],
   reCat [RE.bol, litCI "Total", reWsP, litCI "equity", reWsS, RE.eol]]

/-- Patterns for `retained_earnings`. -/
def retainedEarningsPatterns : List RE :=
  [reCat [litCI "Retained", reWsP, litCI "earnings"],
   reCat [litCI "Accumulated", reWsP, RE.alt (litCI "deficit") (litCI "earnings")]]

/-- Patterns for `total_revenue`. -/
def totalRevenuePatterns : List RE :=
  [reCat [RE.bol, litCI "Total", reWsP, litCI "revenue", reOpt (litCI "s"), reWsS, RE.eol],
   reCat [RE.bol, litCI "Revenue", reOpt (litCI "s"), reWsS, RE.eol],
   reCat [litCI "Total", reWsP, litCI "revenue", reOpt (litCI "s"), reWsS, reCls ['\n']],
   reCat [RE.bol, litCI "Total", reWsP, litCI "revenue", reOpt (litCI "s"), reWsP, reCls ['$']],
   reCat [litCI "Revenue", reOpt (litCI "s"), reWsS, reCls ['\n'], reWsS, reCls ['$']]]

/-- Patterns for `cost_of_revenue`. -/
def costOfRevenuePatterns : List RE :=
  [reCat [litCI "Cost", reWsP, litCI "of", reWsP, litCI "revenue", reOpt (litCI "s")],
   reCat [litCI "Cost", reWsP, litCI "of", reWsP, litCI "sales"]]

/-- Patterns for `gross_profit`. -/
def grossProfitPatterns : List RE :=
  [reCat [litCI "Gross", reWsP, litCI "profit"],
   reCat [litCI "Gross", reWsP, litCI "income"]]

/-- Patterns for `rd`. -/
def rdPatterns : List RE :=
  [reCat [litCI "Research", reWsP, litCI "and", reWsP, litCI "development"],
   litCI "R&D"]

/-- Patterns for `sales_marketing`. -/
def salesMarketingPatterns : List RE :=
  [reCat [litCI "Sales", reWsP, litCI "and", reWsP, litCI "marketing"],
   reCat [litCI "Selling", reWsP, litCI "and", reWsP, litCI "marketing"],
   reCat [litCI "Selling", reOpt (reCls [',']), reWsP, litCI "general", reWsP,
          litCI "and", reWsP, litCI "administrative"]]

/-- Patterns for `ga`. -/
def gaPatterns : List RE :=
  [reCat [litCI "General", reWsP, litCI "and", reWsP, litCI "administrative"]]

/-- Patterns for `operating_income`. -/
def operatingIncomePatterns : List RE :=
  [reCat [litCI "Income", reWsP, litCI "from", reWsP, litCI "operations"],
   reCat [litCI "Operating", reWsP, litCI "income"]]

/-- Patterns for `net_income`. -/
def netIncomePatterns : List RE :=
  [reCat [litCI "Net", reWsP, litCI "income", reWsP, reCls ['('], litCI "loss", reCls [')']],
   reCat [litCI "Net", reWsP, litCI "income"]]

/-- Patterns for `eps`. -/
def epsPatterns : List RE :=
  [reCat [litCI "Basic", reWsP, reOpt (reCat [litCI "net", reWsP]),
          RE.alt (litCI "earnings") (litCI "income"), reWsP, litCI "per", reWsP,
          litCI "share"]]

/-- Patterns for `ocf`. -/
def ocfPatterns : List RE :=
  [reCat [litCI "Net", reWsP, litCI "cash", reWsP, litCI "provided", reWsP,
          litCI "by", reWsP, litCI "operating", reWsP, litCI "activities"],
   reCat [litCI "Cash", reWsP, litCI "from", reWsP, litCI "operating", reWsP,
          litCI "activities"],
   reCat [litCI "Operating", reWsP, litCI "activities"]]

/-- Patterns for `capex`. -/
def capexPatterns : List RE :=
  [reCat [litCI "Capital", reWsP, litCI "expenditures"],
   reCat [litCI "Purchases", reWsP, litCI "of", reWsP, litCI "property", reWsP,
          litCI "and", reWsP, litCI "equipment"],
   reCat [litCI "Property", reWsP, litCI "and", reWsP, litCI "equipment", reWsP,
          litCI "additions"]]

/-! ### The financial schema -/

/-- `financials.assets` slots. -/
structure AssetsSection where
  total : Option ExtractionResult
  current : Option ExtractionResult
  cash : Option ExtractionResult
  marketable_securities : Option ExtractionResult
  accounts_receivable : Option ExtractionResult
  property_equipment : Option ExtractionResult
  goodwill : Option ExtractionResult
deriving DecidableEq, Repr

/-- `financials.liabilities` slots. -/
structure LiabilitiesSection where
  total : Option ExtractionResult
  current : Option ExtractionResult
  long_term_debt : Option ExtractionResult
  accounts_payable : Option ExtractionResult
deriving DecidableEq, Repr

/-- `financials.equity` slots. -/
structure EquitySection where
  total : Option ExtractionResult
  retained_earnings : Option ExtractionResult
deriving DecidableEq, Repr

/-- `financials.revenues` slots. -/
structure RevenuesSection where
  total : Option ExtractionResult
  cost_of_revenue : Option ExtractionResult
  gross_profit : Option ExtractionResult
deriving DecidableEq, Repr

/-- `financials.expenses` slots. -/
structure ExpensesSection where
  research_development : Option ExtractionResult
  sales_marketing : Option ExtractionResult
  general_administrative : Option ExtractionResult
  total_operating : Option ExtractionResult
deriving DecidableEq, Repr

/-- `financials.income` slots. -/
structure IncomeSection where
  operating_income : Option ExtractionResult
  net_income : Option ExtractionResult
  earnings_per_share : Option ExtractionResult
deriving DecidableEq, Repr

/-- `financials.cash_flow` slots. -/
structure CashFlowSection where
  operating : Option ExtractionResult
  investing : Option ExtractionResult
  financing : Option ExtractionResult
  capex : Option ExtractionResult
  free_cash_flow : Option ExtractionResult
deriving DecidableEq, Repr

/-- The seven-category financial schema. -/
structure Financials where
  assets : AssetsSection
  liabilities : LiabilitiesSection
  equity : EquitySection
  revenues : RevenuesSection
  expenses : ExpensesSection
  income : IncomeSection
  cash_flow : CashFlowSection
deriving DecidableEq, Repr

/-- The record literal built by `AnalystParser.extractFinancials` before
`deriveMissingFields` runs on it.  Slots the source never assigns
(`current`, `investing`, `financing`, `free_cash_flow`, `total_operating`)
are absent. -/
def extractFinancialsBase (scale : DocScale) (tables : List FinancialTable)
    (raw : String) : Financials :=
  { assets :=
      { total := extractField scale tables raw "total_assets" totalAssetsPatterns
          5000000000 1000000000000,
        current := none,
        cash := extractField scale tables raw "cash" cashPatterns 100 1000000000000,
        marketable_securities := extractField scale tables raw "marketable_securities"
          marketableSecuritiesPatterns 100 1000000000000,
        accounts_receivable := extractField scale tables raw "accounts_receivable"
          accountsReceivablePatterns 100 1000000000000,
        property_equipment := extractField scale tables raw "property_equipment"
          propertyEquipmentPatterns 100 1000000000000,
        goodwill := extractField scale tables raw "goodwill" goodwillPatterns
          100 1000000000000 },
    liabilities :=
      { total := extractField scale tables raw "total_liabilities"
          totalLiabilitiesPatterns 1000000000 1000000000000,
        current := none,
        long_term_debt := extractField scale tables raw "long_term_debt"
          longTermDebtPatterns 100 1000000000000,
        accounts_payable := extractField scale tables raw "accounts_payable"
          accountsPayablePatterns 100 1000000000000 },
    equity :=
      { total := extractField scale tables raw "total_equity" totalEquityPatterns
          1000000000 1000000000000,
        retained_earnings := extractField scale tables raw "retained_earnings"
          retainedEarningsPatterns 100 1000000000000 },
    revenues :=
      { total := extractField scale tables raw "total_revenue" totalRevenuePatterns
          1000000000 1000000000000,
        cost_of_revenue := extractField scale tables raw "cost_of_revenue"
          costOfRevenuePatterns 100 1000000000000,
        gross_profit := extractField scale tables raw "gross_profit"
          grossProfitPatterns 100 1000000000000 },
    expenses :=
      { research_development := extractField scale tables raw "rd" rdPatterns
          100 1000000000000,
        sales_marketing := extractField scale tables raw "sales_marketing"
          salesMarketingPatterns 100 1000000000000,
        general_administrative := extractField scale tables raw "ga" gaPatterns
          100 1000000000000,
        total_operating := none },
    income :=
      { operating_income := extractField scale tables raw "operating_income"
          operatingIncomePatterns 100 1000000000000,
        net_income := extractField scale tables raw "net_income" netIncomePatterns
          100 1000000000000,
        earnings_per_share := extractField scale tables raw "eps" epsPatterns 0 10000 },
    cash_flow :=
      { operating := extractField scale tables raw "ocf" ocfPatterns 100 1000000000000,
        investing := none,
        financing := none,
        capex := extractField scale tables raw "capex" capexPatterns 100 1000000000000,
        free_cash_flow := none } }

/-! ### `deriveMissingFields` -/

/-- First derivation: `equity.total = assets.total − liabilities.total` when
equity is missing, both inputs are present and the result is positive. -/
def deriveEquity (f : Financials) : Financials :=
  match f.equity.total, f.assets.total, f.liabilities.total with
  | none, some a, some l =>
    let derivedEquity := a.value - l.value
    let r : ExtractionResult :=
      { value := derivedEquity, source := "Derived (Assets - Liabilities)",
        confidence := 90, page := 0, bbox := none,
        context := some "Calculated from balance sheet" }
    if 0 < derivedEquity then { f with equity.total := some r }
    else f
  | _, _, _ => f

/-- Second derivation: `gross_profit = revenue − cost_of_revenue` when
missing, both inputs present and `0 < result < revenue`. -/
def deriveGrossProfit (f : Financials) : Financials :=
  match f.revenues.gross_profit, f.revenues.total, f.revenues.cost_of_revenue with
  | none, some t, some c =>
    let derivedGrossProfit := t.value - c.value
    let r : ExtractionResult :=
      { value := derivedGrossProfit, source := "Derived (Revenue - Cost of Revenue)",
        confidence := 90, page := 0, bbox := none,
        context := some "Calculated from income statement" }
    if 0 < derivedGrossProfit ∧ derivedGrossProfit < t.value then
      { f with revenues.gross_profit := some r }
    else f
  | _, _, _ => f

/-- Third derivation: `free_cash_flow = operating − |capex|` whenever both
inputs are present, with no sign gate. -/
def deriveFreeCashFlow (f : Financials) : Financials :=
  match f.cash_flow.operating, f.cash_flow.capex with
  | some o, some c =>
    let r : ExtractionResult :=
      { value := o.value - |c.value|, source := "Derived (Operating CF - CapEx)",
        confidence := 95, page := 0, bbox := none,
        context := some "Calculated from cash flow statement" }
    { f with cash_flow.free_cash_flow := some r }
  | _, _ => f

/-- `AnalystParser.deriveMissingFields`: the three derivations in source
order. -/
def deriveMissingFields (f : Financials) : Financials :=
  deriveFreeCashFlow (deriveGrossProfit (deriveEquity f))

/-! ### `cleanupImpossibleValues` -/

/-- Unset `liabilities.total` when it is within 1% of `assets.total`. -/
def cleanupLiabilities (f : Financials) : Financials :=
  match f.assets.total, f.liabilities.total with
  | some a, some l =>
    if |a.value - l.value| < a.value * (1 / 100) then
      { f with liabilities.total := none }
    else f
  | _, _ => f

/-- Unset `assets.cash` when it exceeds `assets.total`.  In the source this
rule and the next share one `assets.total` guard; since neither modifies
`assets.total`, the sequential composition of the two singly-guarded steps
is the same function. -/
def cleanupCash (f : Financials) : Financials :=
  match f.assets.total, f.assets.cash with
  | some a, some c =>
    if a.value < c.value then { f with assets.cash := none } else f
  | _, _ => f

/-- Unset `assets.marketable_securities` when it exceeds `assets.total`. -/
def cleanupSecurities (f : Financials) : Financials :=
  match f.assets.total, f.assets.marketable_securities with
  | some a, some m =>
    if a.value < m.value then { f with assets.marketable_securities := none } else f
  | _, _ => f

/-- Unset `income.operating_income` when it exceeds 1.2× revenue.  As with
the cash rules, the shared `revenues.total` guard of the source is split
into two singly-guarded steps; neither step modifies `revenues.total`. -/
def cleanupOperatingIncome (f : Financials) : Financials :=
  match f.revenues.total, f.income.operating_income with
  | some r, some oi =>
    if r.value * (12 / 10) < oi.value then { f with income.operating_income := none }
    else f
  | _, _ => f

/-- Unset `income.net_income` when it exceeds 1.2× revenue. -/
def cleanupNetIncome (f : Financials) : Financials :=
  match f.revenues.total, f.income.net_income with
  | some r, some ni =>
    if r.value * (12 / 10) < ni.value then { f with income.net_income := none } else f
  | _, _ => f

/-- Unset `research_development` when it exceeds revenue. -/
def cleanupRD (f : Financials) : Financials :=
  match f.revenues.total, f.expenses.research_development with
  | some r, some rd =>
    if r.value < rd.value then { f with expenses.research_development := none } else f
  | _, _ => f

/-- `AnalystParser.cleanupImpossibleValues`: the rules in source order. -/
def cleanupImpossibleValues (f : Financials) : Financials :=
  cleanupRD (cleanupNetIncome (cleanupOperatingIncome
    (cleanupSecurities (cleanupCash (cleanupLiabilities f)))))

/-! ### The `parse` pipeline (financial side) -/

/-- `AnalystParser.extractFinancials`: primary extraction followed by
derivation. -/
def extractFinancials (scale : DocScale) (tables : List FinancialTable)
    (raw : String) : Financials :=
  deriveMissingFields (extractFinancialsBase scale tables raw)

/-- Tables available to `parse`: detection runs only when positional words
were supplied. -/
def parseTables (words : List OCRWord) : List FinancialTable :=
  if words.isEmpty then [] else detectTables words

/-- The financials produced by `AnalystParser.parse`: scale detection, table
detection, extraction (including derivation), then plausibility cleanup. -/
def parseFinancials (raw : String) (words : List OCRWord) : Financials :=
  cleanupImpossibleValues
    (extractFinancials (detectDocumentScale raw) (parseTables words) raw)

/-- Modelled from the spec (§4.7 and §2): the pipeline as the specification
describes it, with the PlausibilityFilter running strictly before the
RelationshipDeriver, so that derivation reads post-filter values.  The
source applies the two stages in the opposite order; this definition exists
to compare the two. -/
def specOrderFinancials (raw : String) (words : List OCRWord) : Financials :=
  deriveMissingFields
    (cleanupImpossibleValues
      (extractFinancialsBase (detectDocumentScale raw) (parseTables words) raw))

/-! ### Metadata extraction -/

/-- The eight metadata fields. -/
structure Metadata where
  company_name : String
  ticker : String
  cik : String
  period_end : String
  filing_date : String
  document_type : String
  fiscal_year : String
  fiscal_quarter : String
deriving DecidableEq, Repr

/-- `[A-Za-z0-9\s&\.,'-]` -/
def companyNameChar (c : Char) : Bool :=
  c.isAlpha || c.isDigit || jsWs c || c = '&' || c = '.' || c = ',' || c = apos || c = '-'

/-- Company suffix alternation `(?:Inc\.|Corp\.|Corporation|Company|LLC|Ltd\.|Limited|Co\.?)`. -/
def companySuffixRE : RE :=
  RE.alt (litCI "Inc.")
    (RE.alt (litCI "Corp.")
      (RE.alt (litCI "Corporation")
        (RE.alt (litCI "Company")
          (RE.alt (litCI "LLC")
            (RE.alt (litCI "Ltd.")
              (RE.alt (litCI "Limited")
                (reCat [litCI "Co", reOpt (reCls ['.'])])))))))

/-- `/Alphabet Inc\./i` (no capture group). -/
def companyPattern1 : RE := litCI "Alphabet Inc."

/-- `/^([A-Z][A-Za-z0-9\s&\.,'-]+(?:Inc\.|…|Co\.?))\s+Commission file number/im` -/
def companyPattern2 : RE :=
  reCat [RE.bol,
         RE.grp 1 (reCat [reLetter, rePlus (RE.chr companyNameChar), companySuffixRE]),
         reWsP, litCI "Commission file number"]

/-- `/\d{5}[\s\S]{0,300}?([A-Z][A-Za-z0-9\s&\.,'-]{3,50}(?:Inc\.|Corp\.|Corporation|Company|LLC))/i` -/
def companyPattern3 : RE :=
  reCat [reDigit, reDigit, reDigit, reDigit, reDigit,
         RE.repN 300 true reAny,
         RE.grp 1 (reCat [reLetter,
           reCat [RE.chr companyNameChar, RE.chr companyNameChar, RE.chr companyNameChar,
                  RE.repN 47 false (RE.chr companyNameChar)],
           RE.alt (litCI "Inc.")
             (RE.alt (litCI "Corp.")
               (RE.alt (litCI "Corporation")
                 (RE.alt (litCI "Company") (litCI "LLC"))))])]

/-- `[A-Z]` without the `i` flag. -/
def reUpper : RE := RE.chr fun c => 'A' ≤ c && c ≤ 'Z'

/-- `[A-Z\s&]` without the `i` flag. -/
def upperWsAmp (c : Char) : Bool := ('A' ≤ c && c ≤ 'Z') || jsWs c || c = '&'

/-- `/^([A-Z][A-Z\s&]{3,40}(?:INC|CORP|LLC)\.?)/m` (case-sensitive). -/
def companyPattern4 : RE :=
  reCat [RE.bol,
         RE.grp 1 (reCat [reUpper,
           reCat [RE.chr upperWsAmp, RE.chr upperWsAmp, RE.chr upperWsAmp,
                  RE.repN 37 false (RE.chr upperWsAmp)],
           RE.alt (litCS "INC") (RE.alt (litCS "CORP") (litCS "LLC")),
           reOpt (reCls ['.'])])]

/-- `/SECURITIES|EXCHANGE|ACT OF|UNITED STATES|WASHINGTON|COMMISSION/i` -/
def companyBlacklisted (name : String) : Bool :=
  strContainsCI name "SECURITIES" || strContainsCI name "EXCHANGE" ||
  strContainsCI name "ACT OF" || strContainsCI name "UNITED STATES" ||
  strContainsCI name "WASHINGTON" || strContainsCI name "COMMISSION"

/-- First 3000 characters, searched for the company name. -/
def companyHeader (raw : String) : String := String.mk (raw.toList.take 3000)

/-- The filter applied to a captured company name: `match[1]` must be
truthy (non-empty), and the normalized name must have length in (3, 100)
and survive the blacklist. -/
def acceptCompanyCapture (cap : Option String) : Option String :=
  match cap with
  | none => none
  | some c =>
    if c = "" then none
    else
      let name := String.mk (squashWs (jsTrim c.toList))
      if 3 < name.length ∧ name.length < 100 ∧ !companyBlacklisted name then some name
      else none

/-- The four company-name patterns in source order. -/
def companyPatterns : List RE :=
  [companyPattern1, companyPattern2, companyPattern3, companyPattern4]

/-- `AnalystParser.extractCompanyName`: each pattern's capture is tried in
turn; after every failed attempt the direct `Alphabet Inc.` test runs (it
sits inside the loop in the source); with nothing found the fallback is the
string `Unknown Company`. -/
def extractCompanyName (raw : String) : String :=
  go (companyHeader raw) companyPatterns where
  go (header : String) : List RE → String
    | [] => "Unknown Company"
    | p :: rest =>
      match acceptCompanyCapture (reCapture 1 p header) with
      | some name => name
      | none =>
        if reTest companyPattern1 header then "Alphabet Inc."
        else go header rest

/-- `/FORM\s+10-K\b/i` and friends. -/
def formRE (t : String) : RE := reCat [litCI "FORM", reWsP, litCI t, RE.wordB]

/-- `AnalystParser.extractDocumentType`: searches the first 1000 characters;
the fallback is the string `Unknown`. -/
def extractDocumentType (raw : String) : String :=
  let header := String.mk (raw.toList.take 1000)
  if reTest (formRE "10-K") header then "10-K"
  else if reTest (formRE "10-Q") header then "10-Q"
  else if reTest (formRE "8-K") header then "8-K"
  else "Unknown"

/-- `/Trading Symbol[:\s]+([A-Z]{1,5})\b/i` -/
def tickerRE : RE :=
  reCat [litCI "Trading Symbol", rePlus (RE.chr fun c => c = ':' || jsWs c),
         RE.grp 1 (reCat [reLetter, RE.repN 4 false reLetter]), RE.wordB]

/-- `AnalystParser.extractTicker`. -/
def extractTicker (raw : String) : String :=
  match reCapture 1 tickerRE raw with
  | some t => t
  | none => ""

/-- `/CIK[:\s]+(\d{10})/i` -/
def cikRE : RE :=
  reCat [litCI "CIK", rePlus (RE.chr fun c => c = ':' || jsWs c),
         RE.grp 1 (reCat (List.replicate 10 reDigit))]

/-- `AnalystParser.extractCIK`. -/
def extractCIK (raw : String) : String :=
  match reCapture 1 cikRE raw with
  | some t => t
  | none => ""

/-- The date shape `([A-Z][a-z]+\s+\d{1,2},?\s+\d{4})` under the `i` flag. -/
def dateGroupRE : RE :=
  RE.grp 1 (reCat [reLetter, rePlus reLetter, reWsP, reDigit, reOpt reDigit,
                   reOpt (reCls [',']), reWsP, reDigit, reDigit, reDigit, reDigit])

/-- The three `extractPeriodEnd` patterns. -/
def periodEndPatterns : List RE :=
  [reCat [RE.alt (reCat [litCI "fiscal", reWsP, litCI "year"])
            (RE.alt (litCI "period") (litCI "quarter")),
          reWsP, litCI "ende", reOpt (litCI "d"), reWsP, dateGroupRE],
   reCat [RE.alt (litCI "three") (RE.alt (litCI "six") (litCI "nine")),
          reWsP, litCI "months", reWsP, litCI "ended", reWsP, dateGroupRE],
   reCat [litCI "As", reWsP, litCI "of", reWsP, dateGroupRE]]

/-- `AnalystParser.extractPeriodEnd`. -/
def extractPeriodEnd (raw : String) : String :=
  go periodEndPatterns where
  go : List RE → String
    | [] => ""
    | p :: rest =>
      match reCapture 1 p raw with
      | some t => t
      | none => go rest

/-- `/(?:Filed|Date)[:\s]+([A-Z][a-z]+\s+\d{1,2},?\s+\d{4})/i` -/
def filingDateRE : RE :=
  reCat [RE.alt (litCI "Filed") (litCI "Date"),
         rePlus (RE.chr fun c => c = ':' || jsWs c), dateGroupRE]

/-- `AnalystParser.extractFilingDate`. -/
def extractFilingDate (raw : String) : String :=
  match reCapture 1 filingDateRE raw with
  | some t => t
  | none => ""

/-- `/fiscal\s+year\s+(?:ended?\s+)?(\d{4})/i` -/
def fiscalYearRE : RE :=
  reCat [litCI "fiscal", reWsP, litCI "year", reWsP,
         reOpt (reCat [litCI "ende", reOpt (litCI "d"), reWsP]),
         RE.grp 1 (reCat [reDigit, reDigit, reDigit, reDigit])]

/-- `/(\d{4})/` applied to the period-end string. -/
def yearOfRE : RE := RE.grp 1 (reCat [reDigit, reDigit, reDigit, reDigit])

/-- `AnalystParser.extractFiscalYear`: direct pattern first, then the year
inside the period-end string. -/
def extractFiscalYear (raw : String) : String :=
  match reCapture 1 fiscalYearRE raw with
  | some t => t
  | none =>
    match reCapture 1 yearOfRE (extractPeriodEnd raw) with
    | some t => t
    | none => ""

/-- `/first\s+quarter|Q1/i` and the three variants. -/
def quarterRE (word q : String) : RE :=
  RE.alt (reCat [litCI word, reWsP, litCI "quarter"]) (litCI q)

/-- `AnalystParser.extractFiscalQuarter`: tested against the full text. -/
def extractFiscalQuarter (raw : String) : String :=
  if reTest (quarterRE "first" "Q1") raw then "Q1"
  else if reTest (quarterRE "second" "Q2") raw then "Q2"
  else if reTest (quarterRE "third" "Q3") raw then "Q3"
  else if reTest (quarterRE "fourth" "Q4") raw then "Q4"
  else ""

/-- `AnalystParser.extractMetadata`. -/
def extractMetadata (raw : String) : Metadata :=
  { company_name := extractCompanyName raw,
    ticker := extractTicker raw,
    cik := extractCIK raw,
    period_end := extractPeriodEnd raw,
    filing_date := extractFilingDate raw,
    document_type := extractDocumentType raw,
    fiscal_year := extractFiscalYear raw,
    fiscal_quarter := extractFiscalQuarter raw }

/-! ### `calculateConfidence` -/

/-- `Math.round`: half-up rounding. -/
def jsRound (q : ℚ) : ℤ := ⌊q + 1 / 2⌋

/-- `AnalystParser.calculateConfidence`: weighted field presence minus a
capped warning penalty, clamped to [0, 100]. -/
def calculateConfidence (f : Financials) (warnings : List String) : ℚ :=
  let criticalFields := [f.revenues.total, f.income.net_income, f.assets.total,
                         f.liabilities.total, f.equity.total]
  let importantFields := [f.income.operating_income, f.revenues.gross_profit,
                          f.assets.cash, f.cash_flow.operating]
  let optionalFields := [f.expenses.research_development, f.expenses.sales_marketing,
                         f.cash_flow.capex, f.assets.marketable_securities]
  let score : ℚ :=
    (criticalFields.map fun x => if x.isSome then (3 : ℚ) else 0).sum +
    (importantFields.map fun x => if x.isSome then (2 : ℚ) else 0).sum +
    (optionalFields.map fun x => if x.isSome then (1 : ℚ) else 0).sum
  let total : ℚ := 3 * criticalFields.length + 2 * importantFields.length +
    1 * optionalFields.length
  let warningPenalty : ℚ := min ((warnings.length : ℚ) * 5) 20
  max 0 (min 100 ((jsRound (score / total * 100) : ℚ) - warningPenalty))

/-! ### Definitions used to state the claims -/

/-- Modelled from the spec: the critical-field comparator as the
specification words it, with the 50% threshold taken of the larger of the
two values rather than of the comparator's first argument.  Exists only to
be compared with `criticalCompare`. -/
def specCriticalCompare (a b : ExtractionResult) : ℚ :=
  let valueDiff := b.value - a.value
  if max a.value b.value * (1 / 2) < |valueDiff| then valueDiff
  else b.confidence - a.confidence

/-- An extraction result with a given value and confidence, for concrete
scenarios. -/
def sampleResult (v conf : ℚ) : ExtractionResult :=
  { value := v, source := "sample", confidence := conf, page := 0,
    bbox := none, context := none }

/-- The all-absent financial schema. -/
def emptyFinancials : Financials :=
  { assets := { total := none, current := none, cash := none,
                marketable_securities := none, accounts_receivable := none,
                property_equipment := none, goodwill := none },
    liabilities := { total := none, current := none, long_term_debt := none,
                     accounts_payable := none },
    equity := { total := none, retained_earnings := none },
    revenues := { total := none, cost_of_revenue := none, gross_profit := none },
    expenses := { research_development := none, sales_marketing := none,
                  general_administrative := none, total_operating := none },
    income := { operating_income := none, net_income := none,
                earnings_per_share := none },
    cash_flow := { operating := none, investing := none, financing := none,
                   capex := none, free_cash_flow := none } }

/-- A schema with all thirteen weighted fields present. -/
def fullFinancials : Financials :=
  { assets := { total := some (sampleResult 1 1), current := none,
                cash := some (sampleResult 1 1),
                marketable_securities := some (sampleResult 1 1),
                accounts_receivable := none, property_equipment := none,
                goodwill := none },
    liabilities := { total := some (sampleResult 1 1), current := none,
                     long_term_debt := none, accounts_payable := none },
    equity := { total := some (sampleResult 1 1), retained_earnings := none },
    revenues := { total := some (sampleResult 1 1), cost_of_revenue := none,
                  gross_profit := some (sampleResult 1 1) },
    expenses := { research_development := some (sampleResult 1 1),
                  sales_marketing := some (sampleResult 1 1),
                  general_administrative := none, total_operating := none },
    income := { operating_income := some (sampleResult 1 1),
                net_income := some (sampleResult 1 1), earnings_per_share := none },
    cash_flow := { operating := some (sampleResult 1 1), investing := none,
                   financing := none, capex := some (sampleResult 1 1),
                   free_cash_flow := none } }

/-- Scenario input of claim C4: a document declaring millions scale with the
revenue total on the same line as its label, no dollar sign. -/
def rawScenarioA : String := "(in millions)\nTotal revenues  125,843"

/-- Scenario input for claim C1: total liabilities within 1% of total
assets, both extractable from text. -/
def rawNearEqual : String := "Total assets $100,000\nTotal liabilities $99,500"

/-- A positioned word on a given line at a given x. -/
def wordAt (t : String) (x : ℚ) (ln : Int) : OCRWord :=
  { text := t, bbox := { x := x, y := 0, width := 10, height := 10 },
    confidence := 99, line := ln, page := 0 }

/-- Scenario words for claim C5: three numeric-dense lines forming a table
(terminated by a sparse line) whose middle row reads
`Total assets | 1,000 | 2,024`; with no detected scale the value cell is
worth 1e9, far below the 5e9 minimum bound of `total_assets`. -/
def smallTableWords : List OCRWord :=
  [wordAt "100" 100 0, wordAt "200" 200 0,
   wordAt "Total assets" 0 1, wordAt "1,000" 100 1, wordAt "2,024" 200 1,
   wordAt "300" 100 2, wordAt "400" 200 2,
   wordAt "end" 0 3]

/-- Scenario record of claim C2: operating cash flow 110e9 and
capital expenditure −10e9, free cash flow not directly extracted. -/
def finScenarioC : Financials :=
  { emptyFinancials with cash_flow :=
      { operating := some (sampleResult 110000000000 90),
        investing := none, financing := none,
        capex := some (sampleResult (-10000000000) 90),
        free_cash_flow := none } }

/-- Witness record for claim C3: positive capital expenditure. -/
def finPosCapex : Financials :=
  { emptyFinancials with cash_flow :=
      { operating := some (sampleResult 50000000000 90),
        investing := none, financing := none,
        capex := some (sampleResult 8000000000 85),
        free_cash_flow := none } }

/-- Witness record for claim C1: assets 100e9, liabilities 99.5e9 (within
1%), equity not extracted. -/
def finNearEqual : Financials :=
  { emptyFinancials with
      assets := { total := some (sampleResult 100000000000 85), current := none,
                  cash := none, marketable_securities := none,
                  accounts_receivable := none, property_equipment := none,
                  goodwill := none },
      liabilities := { total := some (sampleResult 99500000000 85), current := none,
                       long_term_debt := none, accounts_payable := none } }

/-- C7 counterexample pool: a table candidate (value 160e9, confidence 80)
pooled before a text candidate (value 100e9, confidence 95); the two values
differ by 60e9, between 50% of the smaller and 50% of the larger value. -/
def candBigTable : ExtractionResult := sampleResult 160000000000 80

/-- The second element of the C7 counterexample pool. -/
def candSmallText : ExtractionResult := sampleResult 100000000000 95

/-- The default document scale (millions / 1e6). -/
def defaultScale : DocScale := { unit := "millions", multiplier := 1000000 }

/-- A one-line document whose total-assets label and value share the line. -/
def rawAssetsLine : String := "Total assets $100,000"

/-- The single text candidate `extractFromText` finds in `rawAssetsLine`
for the total-assets patterns. -/
def textCandidateBig : ExtractionResult :=
  { value := 100000000000, source := "Text extraction (same line)",
    confidence := 85, page := 0, bbox := none,
    context := some "Total assets $100,000" }

/-! ### Lemmas on number parsing and text extraction -/


theorem mem_of_mem_dropWhile {p : α → Bool} :
    ∀ {l : List α} {a : α}, a ∈ l.dropWhile p → a ∈ l := by
  intro l
  induction l with
  | nil => intro a h; simp [List.dropWhile] at h
  | cons x xs ih =>
    intro a h
    rw [List.dropWhile_cons] at h
    split at h
    · exact List.mem_cons_of_mem x (ih h)
    · exact h

theorem mem_of_mem_jsTrim {l : List Char} {a : Char} (h : a ∈ jsTrim l) : a ∈ l := by
  unfold jsTrim at h
  rw [List.mem_reverse] at h
  have h2 := mem_of_mem_dropWhile h
  rw [List.mem_reverse] at h2
  exact mem_of_mem_dropWhile h2

theorem pow10_pos (n : Nat) : 0 < pow10 n := by
  unfold pow10; positivity

theorem qpow10_pos (k : Int) : 0 < qpow10 k := by
  unfold qpow10
  split
  · exact pow10_pos _
  · exact div_pos one_pos (pow10_pos _)

theorem floatSign_fst_one {t : List Char} (hm : '-' ∉ t) : (floatSign t).1 = 1 := by
  unfold floatSign
  split <;> first | rfl | simp_all

theorem parseJsFloat_nonneg {l : List Char} {q : ℚ}
    (hm : '-' ∉ l) (h : parseJsFloat l = some q) : 0 ≤ q := by
  unfold parseJsFloat at h
  dsimp only at h
  split at h
  · simp at h
  · rw [Option.some_inj] at h
    subst h
    have hm2 : '-' ∉ l.dropWhile jsWs := fun hx => hm (mem_of_mem_dropWhile hx)
    rw [floatSign_fst_one hm2, one_mul]
    have hmant : (0 : ℚ) ≤ (digitsToNat (((floatSign (l.dropWhile jsWs)).2).takeWhile Char.isDigit) : ℚ) +
        (digitsToNat ((floatFrac (((floatSign (l.dropWhile jsWs)).2).dropWhile Char.isDigit)).1) : ℚ) /
          pow10 ((floatFrac (((floatSign (l.dropWhile jsWs)).2).dropWhile Char.isDigit)).1).length := by
      have := pow10_pos ((floatFrac (((floatSign (l.dropWhile jsWs)).2).dropWhile Char.isDigit)).1).length
      positivity
    exact mul_nonneg hmant (le_of_lt (qpow10_pos _))

theorem mem_of_mem_dropLast {l : List α} {a : α} (h : a ∈ l.dropLast) : a ∈ l :=
  (List.dropLast_sublist l).subset h

theorem mem_of_mem_cleanNumberText {text : String} {a : Char}
    (h : a ∈ cleanNumberText text) : a ∈ text.toList := by
  unfold cleanNumberText at h
  exact (List.mem_filter.mp (mem_of_mem_jsTrim h)).1

theorem suffixStep_fst_pos {scale : DocScale} (hscale : 0 < scale.multiplier)
    (l : List Char) : 0 < (suffixStep scale l).1 := by
  unfold suffixStep
  split
  · split_ifs <;> first | exact hscale | norm_num
  · exact hscale

theorem suffixStep_snd_sub {scale : DocScale} {l : List Char} {a : Char}
    (h : a ∈ (suffixStep scale l).2) : a ∈ l := by
  unfold suffixStep at h
  split at h
  · split_ifs at h <;> first | exact mem_of_mem_dropLast h | exact h
  · exact h

theorem parseNumber_pos {scale : DocScale} {text : String} {v : ℚ}
    (hchars : ∀ c ∈ text.toList, isDigitComma c = true ∨ c = '.' ∨ c = 'B' ∨ c = 'M' ∨ c = 'K')
    (hscale : 0 < scale.multiplier)
    (h : parseNumber scale text = some v) : 0 < v := by
  have hparen : text.toList.contains '(' = false := by
    by_contra hx
    rw [Bool.not_eq_false] at hx
    have hx2 : '(' ∈ text.toList := by simpa using hx
    rcases hchars _ hx2 with h1 | h1 | h1 | h1 | h1 <;> simp [isDigitComma] at h1
  have hminus : '-' ∉ (suffixStep scale (cleanNumberText text)).2 := by
    intro hx
    have := mem_of_mem_cleanNumberText (suffixStep_snd_sub hx)
    rcases hchars _ this with h1 | h1 | h1 | h1 | h1 <;> simp [isDigitComma] at h1
  unfold parseNumber at h
  dsimp only at h
  rw [hparen, Bool.false_and] at h
  split at h
  · exact absurd h (by simp)
  · rename_i n heq
    split at h
    · exact absurd h (by simp)
    · rename_i hn0
      rw [if_neg (by simp), Option.some_inj] at h
      subst h
      have hn : 0 < n :=
        lt_of_le_of_ne (parseJsFloat_nonneg hminus heq) (Ne.symm hn0)
      exact mul_pos hn (suffixStep_fst_pos hscale _)

theorem numTokenAt_chars {s : List Char} {i len : Nat} {num : List Char}
    {suf : Option Char} (h : numTokenAt s i = some (len, num, suf)) :
    (∀ c ∈ num, isDigitComma c = true ∨ c = '.') ∧
    (∀ c, suf = some c → c = 'B' ∨ c = 'M' ∨ c = 'K') := by
  unfold numTokenAt at h
  split at h
  · exact absurd h (by simp)
  · rw [Option.some_inj] at h
    cases h
    constructor
    · intro c hc
      rcases List.mem_append.mp hc with hd | hf
      · exact Or.inl (List.mem_takeWhile_imp hd)
      · unfold numTokenFra at hf
        split at hf
        · split at hf
          · rcases List.mem_cons.mp hf with rfl | hf
            · exact Or.inr rfl
            · exact Or.inl (by
                have := List.mem_takeWhile_imp hf
                simp [isDigitComma, this])
          · simp at hf
        · simp at hf
    · intro c hc
      unfold numTokenSuf at hc
      split at hc
      · split at hc
        · simp only [Prod.fst, Option.some_inj] at hc
          subst hc
          simp_all
          tauto
        · simp at hc
      · simp at hc

theorem scanNumberTokens_mem {s : List Char} {ts : List Char × Option Char}
    (h : ts ∈ scanNumberTokens s) :
    (∀ c ∈ ts.1, isDigitComma c = true ∨ c = '.') ∧
    (∀ c, ts.2 = some c → c = 'B' ∨ c = 'M' ∨ c = 'K') := by
  unfold scanNumberTokens at h
  suffices H : ∀ fuel i, ts ∈ scanNumberTokens.go s i fuel →
      (∀ c ∈ ts.1, isDigitComma c = true ∨ c = '.') ∧
      (∀ c, ts.2 = some c → c = 'B' ∨ c = 'M' ∨ c = 'K') from H _ _ h
  intro fuel
  induction fuel with
  | zero => intro i h2; simp [scanNumberTokens.go] at h2
  | succ n ih =>
    intro i h2
    unfold scanNumberTokens.go at h2
    split at h2
    · rename_i len num suf heq
      rcases List.mem_cons.mp h2 with rfl | h3
      · exact numTokenAt_chars heq
      · exact ih _ h3
    · split at h2
      · exact ih _ h2
      · simp at h2



/-- The rebuilt numeral token only contains digit, comma, dot and suffix
characters. -/
theorem rebuiltToken_chars {ts : List Char × Option Char}
    (hts : (∀ c ∈ ts.1, isDigitComma c = true ∨ c = '.') ∧
      (∀ c, ts.2 = some c → c = 'B' ∨ c = 'M' ∨ c = 'K')) :
    ∀ c ∈ (rebuiltToken ts).toList,
      isDigitComma c = true ∨ c = '.' ∨ c = 'B' ∨ c = 'M' ∨ c = 'K' := by
  intro c hc
  have hc2 : c ∈ ts.1 ++ (match ts.2 with | some c => [c] | none => []) := hc
  rcases List.mem_append.mp hc2 with h1 | h1
  · rcases hts.1 c h1 with h2 | h2
    · exact Or.inl h2
    · exact Or.inr (Or.inl h2)
  · revert h1
    split
    · rename_i c2 heq
      intro h1
      rcases List.mem_singleton.mp h1 with rfl
      rcases hts.2 c heq with h2 | h2 | h2
      · exact Or.inr (Or.inr (Or.inl h2))
      · exact Or.inr (Or.inr (Or.inr (Or.inl h2)))
      · exact Or.inr (Or.inr (Or.inr (Or.inr h2)))
    · intro h1; simp at h1

theorem mkSameLineCandidate_mem {scale : DocScale} {isCons : Bool} {minV maxV : ℚ}
    {line : List Char} {ts : List Char × Option Char} {r : ExtractionResult}
    (hts : ts ∈ scanNumberTokens line)
    (h : mkSameLineCandidate scale isCons minV maxV line ts = some r) :
    (minV ≤ r.value ∧ r.value ≤ maxV) ∧ (0 < scale.multiplier → 0 < r.value) := by
  unfold mkSameLineCandidate at h
  rcases hpn : parseNumber scale (rebuiltToken ts) with _ | value
  · rw [hpn] at h; exact absurd h (by simp)
  · rw [hpn] at h
    dsimp only at h
    by_cases hb : minV ≤ value ∧ value ≤ maxV
    · rw [if_pos hb, Option.some_inj] at h
      subst h
      exact ⟨hb, fun hsc =>
        parseNumber_pos (rebuiltToken_chars (scanNumberTokens_mem hts)) hsc hpn⟩
    · rw [if_neg hb] at h; exact absurd h (by simp)

theorem mkNextLineCandidate_mem {scale : DocScale} {isCons : Bool} {minV maxV : ℚ}
    {line nextLine : List Char} {ts : List Char × Option Char} {r : ExtractionResult}
    (hts : ts ∈ scanNumberTokens nextLine)
    (h : r ∈ mkNextLineCandidate scale isCons minV maxV line nextLine ts) :
    (minV ≤ r.value ∧ r.value ≤ maxV) ∧ (0 < scale.multiplier → 0 < r.value) := by
  unfold mkNextLineCandidate at h
  rcases hpn : parseNumber scale (rebuiltToken ts) with _ | value
  · rw [hpn] at h; simp at h
  · rw [hpn] at h
    dsimp only at h
    by_cases hb : minV ≤ value ∧ value ≤ maxV
    · rw [if_pos hb] at h
      rcases List.mem_singleton.mp h with rfl
      exact ⟨hb, fun hsc =>
        parseNumber_pos (rebuiltToken_chars (scanNumberTokens_mem hts)) hsc hpn⟩
    · rw [if_neg hb] at h; simp at h

theorem lineCandidates_mem {scale : DocScale} {isCons : Bool} {minV maxV : ℚ}
    {line nextLine : List Char} {r : ExtractionResult}
    (h : r ∈ lineCandidates scale isCons minV maxV line nextLine) :
    (minV ≤ r.value ∧ r.value ≤ maxV) ∧ (0 < scale.multiplier → 0 < r.value) := by
  unfold lineCandidates at h
  dsimp only at h
  by_cases he : (scanNumberTokens line).isEmpty
  · rw [if_neg (by simp [he])] at h
    rcases hh : (scanNumberTokens nextLine).head? with _ | ts
    · rw [hh] at h; simp at h
    · rw [hh] at h
      exact mkNextLineCandidate_mem (List.mem_of_mem_head? hh) h
  · rw [if_pos (by simp [he])] at h
    rw [List.mem_filterMap] at h
    obtain ⟨ts, hts, hfn⟩ := h
    exact mkSameLineCandidate_mem hts hfn

theorem textPassResults_mem {scale : DocScale} {isCons : Bool} {patterns : List RE}
    {minV maxV : ℚ} {text : String} {r : ExtractionResult}
    (h : r ∈ textPassResults scale isCons patterns minV maxV text) :
    (minV ≤ r.value ∧ r.value ≤ maxV) ∧ (0 < scale.multiplier → 0 < r.value) := by
  unfold textPassResults at h
  rw [List.mem_flatMap] at h
  obtain ⟨i, -, h⟩ := h
  rw [List.mem_flatMap] at h
  obtain ⟨p, -, h⟩ := h
  revert h
  split
  · exact fun h => lineCandidates_mem h
  · intro h; simp at h

theorem textSearchLoop_mem {scale : DocScale} {patterns : List RE} {minV maxV : ℚ}
    {ct : String} :
    ∀ (sts : List String) (acc : List ExtractionResult),
      (∀ x ∈ acc, (minV ≤ x.value ∧ x.value ≤ maxV) ∧ (0 < scale.multiplier → 0 < x.value)) →
      ∀ r ∈ textSearchLoop scale patterns minV maxV ct sts acc,
        (minV ≤ r.value ∧ r.value ≤ maxV) ∧ (0 < scale.multiplier → 0 < r.value) := by
  intro sts
  induction sts with
  | nil =>
    intro acc hacc r hr
    unfold textSearchLoop at hr
    exact hacc r hr
  | cons st rest ih =>
    intro acc hacc r hr
    unfold textSearchLoop at hr
    dsimp only at hr
    have hacc2 : ∀ x ∈ acc ++ textPassResults scale (decide (st = ct)) patterns minV maxV st,
        (minV ≤ x.value ∧ x.value ≤ maxV) ∧ (0 < scale.multiplier → 0 < x.value) := by
      intro x hx
      rcases List.mem_append.mp hx with h1 | h1
      · exact hacc x h1
      · exact textPassResults_mem h1
    split at hr
    · split at hr
      · exact hacc2 r (List.mem_filter.mp hr).1
      · exact hacc2 r hr
    · exact ih _ hacc2 r hr

theorem extractFromText_mem {scale : DocScale} {raw : String} {patterns : List RE}
    {minV maxV : ℚ} {r : ExtractionResult}
    (h : r ∈ extractFromText scale raw patterns minV maxV) :
    (minV ≤ r.value ∧ r.value ≤ maxV) ∧ (0 < scale.multiplier → 0 < r.value) := by
  unfold extractFromText at h
  dsimp only at h
  revert h
  split
  · exact fun h => textSearchLoop_mem _ _ (by simp) r h
  · exact fun h => textSearchLoop_mem _ _ (by simp) r h


/-! ### Preservation lemmas: which sections each pipeline step leaves alone -/

theorem deriveEquity_assets (f : Financials) : (deriveEquity f).assets = f.assets := by
  unfold deriveEquity; split <;> first | rfl | (dsimp only; split <;> rfl)

theorem deriveEquity_liabilities (f : Financials) :
    (deriveEquity f).liabilities = f.liabilities := by
  unfold deriveEquity; split <;> first | rfl | (dsimp only; split <;> rfl)

theorem deriveEquity_cash_flow (f : Financials) :
    (deriveEquity f).cash_flow = f.cash_flow := by
  unfold deriveEquity; split <;> first | rfl | (dsimp only; split <;> rfl)

theorem deriveGrossProfit_assets (f : Financials) :
    (deriveGrossProfit f).assets = f.assets := by
  unfold deriveGrossProfit; split <;> first | rfl | (dsimp only; split <;> rfl)

theorem deriveGrossProfit_liabilities (f : Financials) :
    (deriveGrossProfit f).liabilities = f.liabilities := by
  unfold deriveGrossProfit; split <;> first | rfl | (dsimp only; split <;> rfl)

theorem deriveGrossProfit_equity (f : Financials) :
    (deriveGrossProfit f).equity = f.equity := by
  unfold deriveGrossProfit; split <;> first | rfl | (dsimp only; split <;> rfl)

theorem deriveGrossProfit_cash_flow (f : Financials) :
    (deriveGrossProfit f).cash_flow = f.cash_flow := by
  unfold deriveGrossProfit; split <;> first | rfl | (dsimp only; split <;> rfl)

theorem deriveFreeCashFlow_assets (f : Financials) :
    (deriveFreeCashFlow f).assets = f.assets := by
  unfold deriveFreeCashFlow; split <;> rfl

theorem deriveFreeCashFlow_liabilities (f : Financials) :
    (deriveFreeCashFlow f).liabilities = f.liabilities := by
  unfold deriveFreeCashFlow; split <;> rfl

theorem deriveFreeCashFlow_equity (f : Financials) :
    (deriveFreeCashFlow f).equity = f.equity := by
  unfold deriveFreeCashFlow; split <;> rfl

theorem cleanupLiabilities_equity (f : Financials) :
    (cleanupLiabilities f).equity = f.equity := by
  unfold cleanupLiabilities; split <;> first | rfl | (dsimp only; split <;> rfl)

theorem cleanupCash_equity (f : Financials) : (cleanupCash f).equity = f.equity := by
  unfold cleanupCash; split <;> first | rfl | (dsimp only; split <;> rfl)

theorem cleanupCash_liabilities (f : Financials) :
    (cleanupCash f).liabilities = f.liabilities := by
  unfold cleanupCash; split <;> first | rfl | (dsimp only; split <;> rfl)

theorem cleanupSecurities_equity (f : Financials) :
    (cleanupSecurities f).equity = f.equity := by
  unfold cleanupSecurities; split <;> first | rfl | (dsimp only; split <;> rfl)

theorem cleanupSecurities_liabilities (f : Financials) :
    (cleanupSecurities f).liabilities = f.liabilities := by
  unfold cleanupSecurities; split <;> first | rfl | (dsimp only; split <;> rfl)

theorem cleanupOperatingIncome_equity (f : Financials) :
    (cleanupOperatingIncome f).equity = f.equity := by
  unfold cleanupOperatingIncome; split <;> first | rfl | (dsimp only; split <;> rfl)

theorem cleanupOperatingIncome_liabilities (f : Financials) :
    (cleanupOperatingIncome f).liabilities = f.liabilities := by
  unfold cleanupOperatingIncome; split <;> first | rfl | (dsimp only; split <;> rfl)

theorem cleanupNetIncome_equity (f : Financials) :
    (cleanupNetIncome f).equity = f.equity := by
  unfold cleanupNetIncome; split <;> first | rfl | (dsimp only; split <;> rfl)

theorem cleanupNetIncome_liabilities (f : Financials) :
    (cleanupNetIncome f).liabilities = f.liabilities := by
  unfold cleanupNetIncome; split <;> first | rfl | (dsimp only; split <;> rfl)

theorem cleanupRD_equity (f : Financials) : (cleanupRD f).equity = f.equity := by
  unfold cleanupRD; split <;> first | rfl | (dsimp only; split <;> rfl)

theorem cleanupRD_liabilities (f : Financials) :
    (cleanupRD f).liabilities = f.liabilities := by
  unfold cleanupRD; split <;> first | rfl | (dsimp only; split <;> rfl)


theorem companyGo_fallback (header : String) :
    ∀ ps : List RE, (∀ p ∈ ps, acceptCompanyCapture (reCapture 1 p header) = none) →
    reTest companyPattern1 header = false →
    extractCompanyName.go header ps = "Unknown Company" := by
  intro ps
  induction ps with
  | nil => intro _ _; rfl
  | cons p rest ih =>
    intro hall halpha
    unfold extractCompanyName.go
    rw [hall p (List.mem_cons_self _ _), halpha]
    simp only [Bool.false_eq_true, if_false]
    exact ih (fun q hq => hall q (List.mem_cons_of_mem _ hq)) halpha

theorem periodEndGo_fallback (raw : String) :
    ∀ ps : List RE, (∀ p ∈ ps, reCapture 1 p raw = none) →
    extractPeriodEnd.go raw ps = "" := by
  intro ps
  induction ps with
  | nil => intro _; rfl
  | cons p rest ih =>
    intro hall
    unfold extractPeriodEnd.go
    rw [hall p (List.mem_cons_self _ _)]
    exact ih (fun q hq => hall q (List.mem_cons_of_mem _ hq))


/-! ### The claims -/

set_option maxRecDepth 100000 in
set_option maxHeartbeats 2000000 in
/-- C1: the claim states that plausibility filtering runs strictly before
derivation inside `parse`, so that a value unset by
`cleanupImpossibleValues` can never contribute to a derived field.  The
source runs `deriveMissingFields` (inside `extractFinancials`) first:
on a document whose total liabilities sit within 1% of total assets, the
parse pipeline derives `equity.total` from the very liabilities value the
filter then unsets, while the spec-ordered pipeline leaves equity empty. -/
theorem C1_counterexample :
    (parseFinancials rawNearEqual []).liabilities.total = none ∧
    (parseFinancials rawNearEqual []).equity.total = some
      { value := 500000000, source := "Derived (Assets - Liabilities)",
        confidence := 90, page := 0, bbox := none,
        context := some "Calculated from balance sheet" } ∧
    (specOrderFinancials rawNearEqual []).equity.total = none := by decide

/-- C1 (amended): inside `parse`, derivation runs before plausibility
filtering, so a liabilities value that the filter is about to unset still
contributes to the derived equity: whenever equity is unextracted, assets
and liabilities are present, their difference is positive and below 1% of
assets, the parse-ordered composition returns a populated derived
`equity.total` together with `liabilities.total` unset. -/
theorem C1_derivation_sees_prefilter_values (f : Financials) (a l : ExtractionResult)
    (h1 : f.equity.total = none) (h2 : f.assets.total = some a)
    (h3 : f.liabilities.total = some l) (h4 : 0 < a.value - l.value)
    (h5 : |a.value - l.value| < a.value * (1 / 100)) :
    (cleanupImpossibleValues (deriveMissingFields f)).equity.total =
      some { value := a.value - l.value, source := "Derived (Assets - Liabilities)",
             confidence := 90, page := 0, bbox := none,
             context := some "Calculated from balance sheet" } ∧
    (cleanupImpossibleValues (deriveMissingFields f)).liabilities.total = none := by
  have hde : (deriveEquity f).equity.total =
      some { value := a.value - l.value, source := "Derived (Assets - Liabilities)",
             confidence := 90, page := 0, bbox := none,
             context := some "Calculated from balance sheet" } := by
    unfold deriveEquity; rw [h1, h2, h3]; dsimp only; rw [if_pos h4]
  have hdeq : (deriveMissingFields f).equity.total =
      some { value := a.value - l.value, source := "Derived (Assets - Liabilities)",
             confidence := 90, page := 0, bbox := none,
             context := some "Calculated from balance sheet" } := by
    unfold deriveMissingFields
    rw [deriveFreeCashFlow_equity, deriveGrossProfit_equity]; exact hde
  have hda : (deriveMissingFields f).assets.total = some a := by
    unfold deriveMissingFields
    rw [deriveFreeCashFlow_assets, deriveGrossProfit_assets, deriveEquity_assets, h2]
  have hdl : (deriveMissingFields f).liabilities.total = some l := by
    unfold deriveMissingFields
    rw [deriveFreeCashFlow_liabilities, deriveGrossProfit_liabilities,
        deriveEquity_liabilities, h3]
  have hcl : (cleanupLiabilities (deriveMissingFields f)).liabilities.total = none := by
    unfold cleanupLiabilities; rw [hda, hdl]; dsimp only; rw [if_pos h5]
  constructor
  · unfold cleanupImpossibleValues
    rw [cleanupRD_equity, cleanupNetIncome_equity, cleanupOperatingIncome_equity,
        cleanupSecurities_equity, cleanupCash_equity, cleanupLiabilities_equity]
    exact hdeq
  · unfold cleanupImpossibleValues
    rw [cleanupRD_liabilities, cleanupNetIncome_liabilities,
        cleanupOperatingIncome_liabilities, cleanupSecurities_liabilities,
        cleanupCash_liabilities]
    exact hcl

/-- C1 witness: the amended statement at a concrete schema with assets
100e9 and liabilities 99.5e9. -/
theorem C1_witness :
    (cleanupImpossibleValues (deriveMissingFields finNearEqual)).equity.total =
      some { value := 500000000, source := "Derived (Assets - Liabilities)",
             confidence := 90, page := 0, bbox := none,
             context := some "Calculated from balance sheet" } ∧
    (cleanupImpossibleValues (deriveMissingFields finNearEqual)).liabilities.total = none := by
  have h := C1_derivation_sees_prefilter_values finNearEqual
    (sampleResult 100000000000 85) (sampleResult 99500000000 85)
    rfl rfl rfl (by decide) (by decide)
  exact ⟨h.1.trans (by decide), h.2⟩

/-- C2: the claim computes free cash flow for operating 110e9 and
capex −10e9 as 120e9; the source subtracts the absolute value of capex and
returns 100e9. -/
theorem C2_counterexample :
    (deriveMissingFields finScenarioC).cash_flow.free_cash_flow.map
      ExtractionResult.value = some 100000000000 ∧
    (deriveMissingFields finScenarioC).cash_flow.free_cash_flow.map
      ExtractionResult.value ≠ some 120000000000 := by decide

/-- C2 (amended): with cash_flow.operating populated at 110e9 and
cash_flow.capex populated at −10e9 (free cash flow not directly
extracted), the derived `free_cash_flow` equals exactly 100e9 =
110e9 − |−10e9|, with confidence 95. -/
theorem C2_free_cash_flow_scenario :
    (deriveMissingFields finScenarioC).cash_flow.free_cash_flow = some
      { value := 100000000000, source := "Derived (Operating CF - CapEx)",
        confidence := 95, page := 0, bbox := none,
        context := some "Calculated from cash flow statement" } := by decide

/-- C3: whenever both `cash_flow.operating` and `cash_flow.capex` are
populated, `deriveMissingFields` sets `cash_flow.free_cash_flow` to
operating minus the absolute value of capex, with confidence exactly 95 and
no positivity gate, for every sign of capex. -/
theorem C3_free_cash_flow_derivation (f : Financials) (o c : ExtractionResult)
    (h1 : f.cash_flow.operating = some o) (h2 : f.cash_flow.capex = some c) :
    (deriveMissingFields f).cash_flow.free_cash_flow =
      some { value := o.value - |c.value|, source := "Derived (Operating CF - CapEx)",
             confidence := 95, page := 0, bbox := none,
             context := some "Calculated from cash flow statement" } := by
  unfold deriveMissingFields
  have ho : (deriveGrossProfit (deriveEquity f)).cash_flow = f.cash_flow := by
    rw [deriveGrossProfit_cash_flow, deriveEquity_cash_flow]
  unfold deriveFreeCashFlow
  rw [ho, h1, h2]

/-- C3 witness: the derivation at a schema with operating 50e9 and a
positive capex of 8e9. -/
theorem C3_witness :
    (deriveMissingFields finPosCapex).cash_flow.free_cash_flow = some
      { value := 42000000000, source := "Derived (Operating CF - CapEx)",
        confidence := 95, page := 0, bbox := none,
        context := some "Calculated from cash flow statement" } := by
  have h := C3_free_cash_flow_derivation finPosCapex
    (sampleResult 50000000000 90) (sampleResult 8000000000 85) rfl rfl
  exact h.trans (by decide)

set_option maxRecDepth 100000 in
set_option maxHeartbeats 2000000 in
/-- C4: the claim expects `revenues.total` to be populated with
125,843,000,000 from the line `Total revenues  125,843` under an
`(in millions)` declaration; in the source none of the five revenue label
patterns can match a line that carries its numeral on the same line with no
dollar sign (they are anchored at end of line, require a literal newline, or
require a dollar sign), so the slot stays empty. -/
theorem C4_counterexample :
    (parseFinancials rawScenarioA []).revenues.total = none := by decide

set_option maxRecDepth 100000 in
set_option maxHeartbeats 2000000 in
/-- C4 (amended): on the scenario-A document the parse pipeline leaves
`revenues.total` unset, and with no positional words supplied the detected
table list is empty. -/
theorem C4_scenarioA :
    (parseFinancials rawScenarioA []).revenues.total = none ∧
    parseTables [] = [] := by decide

set_option maxRecDepth 100000 in
set_option maxHeartbeats 4000000 in
/-- C5: the claim says every populated field passed its minimum/maximum
magnitude bounds regardless of strategy; table-based candidates are never
bounds-checked, so a table whose `Total assets` row reads 1,000 (worth 1e9
under the default millions scale, far below the 5e9 minimum for
`total_assets`) still populates the slot. -/
theorem C5_counterexample :
    (parseFinancials "" smallTableWords).assets.total = some
      { value := 1000000000, source := "Table: 100 200 (page 0, row 1)",
        confidence := 93, page := 0,
        bbox := some { x := 100, y := 0, width := 10, height := 10 },
        context := some "Total assets | 1,000" } ∧
    (1000000000 : ℚ) < 5000000000 := by decide

/-- C5 (amended): the minimum/maximum magnitude bounds are enforced only on
the text-based strategy: every candidate `extractFromText` produces lies
within the field bounds (table candidates bypass the check, as the
counterexample shows). -/
theorem C5_text_candidates_bounded (scale : DocScale) (raw : String)
    (patterns : List RE) (minV maxV : ℚ) (r : ExtractionResult)
    (h : r ∈ extractFromText scale raw patterns minV maxV) :
    minV ≤ r.value ∧ r.value ≤ maxV :=
  (extractFromText_mem h).1

set_option maxRecDepth 100000 in
set_option maxHeartbeats 2000000 in
/-- C5 witness: the bounds at the concrete candidate extracted from
`Total assets $100,000`. -/
theorem C5_witness :
    (5000000000 : ℚ) ≤ textCandidateBig.value ∧
    textCandidateBig.value ≤ 1000000000000 :=
  C5_text_candidates_bounded defaultScale rawAssetsLine totalAssetsPatterns
    5000000000 1000000000000 textCandidateBig (by decide)

/-- C6: the claim says all eight metadata fields fall back to the empty
string; `extractCompanyName` falls back to the string `Unknown Company` and
`extractDocumentType` to `Unknown` (the remaining six do return the empty
string).  On the empty document every pattern fails, yet the two fields are
non-empty. -/
theorem C6_counterexample :
    (companyPatterns.all fun p =>
      (acceptCompanyCapture (reCapture 1 p (companyHeader ""))).isNone) = true ∧
    extractCompanyName "" = "Unknown Company" ∧ extractCompanyName "" ≠ "" ∧
    extractDocumentType "" = "Unknown" ∧ extractDocumentType "" ≠ "" := by decide

/-- C6 (amended): when every pattern of a metadata field fails (or every
company-name capture is rejected), six of the eight fields resolve to the
empty string, while `company_name` resolves to the string
`Unknown Company` and `document_type` to `Unknown`. -/
theorem C6_metadata_fallbacks (raw : String) :
    ((∀ p ∈ companyPatterns, acceptCompanyCapture (reCapture 1 p (companyHeader raw)) = none) →
      reTest companyPattern1 (companyHeader raw) = false →
      (extractMetadata raw).company_name = "Unknown Company") ∧
    (reTest (formRE "10-K") (String.mk (raw.toList.take 1000)) = false →
      reTest (formRE "10-Q") (String.mk (raw.toList.take 1000)) = false →
      reTest (formRE "8-K") (String.mk (raw.toList.take 1000)) = false →
      (extractMetadata raw).document_type = "Unknown") ∧
    (reCapture 1 tickerRE raw = none → (extractMetadata raw).ticker = "") ∧
    (reCapture 1 cikRE raw = none → (extractMetadata raw).cik = "") ∧
    ((∀ p ∈ periodEndPatterns, reCapture 1 p raw = none) →
      (extractMetadata raw).period_end = "") ∧
    (reCapture 1 filingDateRE raw = none → (extractMetadata raw).filing_date = "") ∧
    (reCapture 1 fiscalYearRE raw = none →
      reCapture 1 yearOfRE (extractPeriodEnd raw) = none →
      (extractMetadata raw).fiscal_year = "") ∧
    (reTest (quarterRE "first" "Q1") raw = false →
      reTest (quarterRE "second" "Q2") raw = false →
      reTest (quarterRE "third" "Q3") raw = false →
      reTest (quarterRE "fourth" "Q4") raw = false →
      (extractMetadata raw).fiscal_quarter = "") := by
  refine ⟨?_, ?_, ?_, ?_, ?_, ?_, ?_, ?_⟩
  · intro hall halpha
    show extractCompanyName raw = "Unknown Company"
    unfold extractCompanyName
    exact companyGo_fallback (companyHeader raw) companyPatterns hall halpha
  · intro h1 h2 h3
    show extractDocumentType raw = "Unknown"
    unfold extractDocumentType
    dsimp only
    rw [h1, h2, h3]
    rfl
  · intro h
    show extractTicker raw = ""
    unfold extractTicker
    rw [h]
  · intro h
    show extractCIK raw = ""
    unfold extractCIK
    rw [h]
  · intro hall
    show extractPeriodEnd raw = ""
    unfold extractPeriodEnd
    exact periodEndGo_fallback raw periodEndPatterns hall
  · intro h
    show extractFilingDate raw = ""
    unfold extractFilingDate
    rw [h]
  · intro h1 h2
    show extractFiscalYear raw = ""
    unfold extractFiscalYear
    rw [h1, h2]
  · intro h1 h2 h3 h4
    show extractFiscalQuarter raw = ""
    unfold extractFiscalQuarter
    rw [h1, h2, h3, h4]
    rfl



/-- C6 witness: the fallbacks at the empty document, on which every
metadata pattern fails. -/
theorem C6_witness :
    (extractMetadata "").company_name = "Unknown Company" ∧
    (extractMetadata "").document_type = "Unknown" ∧
    (extractMetadata "").ticker = "" ∧
    (extractMetadata "").cik = "" ∧
    (extractMetadata "").period_end = "" ∧
    (extractMetadata "").filing_date = "" ∧
    (extractMetadata "").fiscal_year = "" ∧
    (extractMetadata "").fiscal_quarter = "" := by
  obtain ⟨h1, h2, h3, h4, h5, h6, h7, h8⟩ := C6_metadata_fallbacks ""
  exact ⟨h1 (by decide) (by decide), h2 (by decide) (by decide) (by decide),
    h3 (by decide), h4 (by decide), h5 (by decide), h6 (by decide),
    h7 (by decide) (by decide), h8 (by decide) (by decide) (by decide) (by decide)⟩

/-- C7: the claim orders a critical-field pair by value descending exactly
when the two values differ by more than 50% of the larger of the two;
the source comparator takes 50% of its first argument's value.  For a table
candidate of 160e9 at confidence 80 pooled before a text candidate of 100e9
at confidence 95 (difference 60e9, between 50% of the smaller and 50% of the
larger), the source keeps the 160e9 candidate on top while the claimed rule
puts the 100e9 candidate first. -/
theorem C7_counterexample :
    jsSort criticalCompare [candBigTable, candSmallText] =
      [candBigTable, candSmallText] ∧
    jsSort specCriticalCompare [candBigTable, candSmallText] =
      [candSmallText, candBigTable] ∧
    0 ≤ criticalCompare candSmallText candBigTable ∧
    specCriticalCompare candSmallText candBigTable < 0 := by decide

/-- C7 (amended): `criticalCompare`'s threshold is half of its first
argument's value, so the pairwise rule of the claim holds only outside the
asymmetric band: when the two values differ by more than 50% of the larger
one, both comparison directions order by value descending; when they differ
by at most 50% of the smaller one, both directions order by confidence
descending; in between, the comparator is order-inconsistent and the final
ranking depends on the sort implementation. -/
theorem C7_comparator (a b : ExtractionResult) :
    (max a.value b.value * (1 / 2) < |b.value - a.value| →
      criticalCompare a b = b.value - a.value ∧
      criticalCompare b a = a.value - b.value) ∧
    (|b.value - a.value| ≤ min a.value b.value * (1 / 2) →
      criticalCompare a b = b.confidence - a.confidence ∧
      criticalCompare b a = a.confidence - b.confidence) := by
  constructor
  · intro h
    have h1 : a.value * (1 / 2) < |b.value - a.value| :=
      lt_of_le_of_lt (by nlinarith [le_max_left a.value b.value]) h
    have h2 : b.value * (1 / 2) < |a.value - b.value| := by
      rw [abs_sub_comm]
      exact lt_of_le_of_lt (by nlinarith [le_max_right a.value b.value]) h
    constructor
    · unfold criticalCompare; rw [if_pos h1]
    · unfold criticalCompare; rw [if_pos h2]
  · intro h
    have h1 : ¬(a.value * (1 / 2) < |b.value - a.value|) := by
      push_neg
      exact le_trans h (by nlinarith [min_le_left a.value b.value])
    have h2 : ¬(b.value * (1 / 2) < |a.value - b.value|) := by
      push_neg
      rw [abs_sub_comm]
      exact le_trans h (by nlinarith [min_le_right a.value b.value])
    constructor
    · unfold criticalCompare; rw [if_neg h1]
    · unfold criticalCompare; rw [if_neg h2]

/-- C7 witness: both branches of the amended statement at concrete pairs:
300e9 against 100e9 differ by more than half the larger (value order), and
100e9 against 110e9 differ by at most half the smaller (confidence order). -/
theorem C7_witness :
    criticalCompare (sampleResult 300000000000 70) (sampleResult 100000000000 95) =
      -200000000000 ∧
    criticalCompare (sampleResult 100000000000 90) (sampleResult 110000000000 80) =
      -10 := by
  constructor
  · exact ((C7_comparator _ _).1 (by decide)).1.trans (by decide)
  · exact ((C7_comparator _ _).2 (by decide)).1.trans (by decide)

/-- C8: for every numeral token whose cleaned text carries an explicit
B/M/K suffix (case-insensitive), `parseNumber` is independent of the
document scale, and the suffix's exact multiplier is applied (1e9/1e6/1e3),
shown on concrete tokens for every scale. -/
theorem C8_suffix_ignores_scale :
    (∀ (s1 s2 : DocScale) (t : String),
      ((cleanNumberText t).getLast?.any fun c =>
        c.toLower = 'b' || c.toLower = 'm' || c.toLower = 'k') = true →
      parseNumber s1 t = parseNumber s2 t) ∧
    (∀ s : DocScale,
      parseNumber s "2.5B" = some 2500000000 ∧
      parseNumber s "3.1m" = some 3100000 ∧
      parseNumber s "45K" = some 45000) := by
  have main : ∀ (s1 s2 : DocScale) (t : String),
      ((cleanNumberText t).getLast?.any fun c =>
        c.toLower = 'b' || c.toLower = 'm' || c.toLower = 'k') = true →
      parseNumber s1 t = parseNumber s2 t := by
    intro s1 s2 t h
    unfold parseNumber
    dsimp only
    unfold suffixStep
    rcases hL : (cleanNumberText t).getLast? with _ | c
    · rw [hL] at h; simp [Option.any] at h
    · rw [hL] at h
      simp only [Option.any] at h
      dsimp only
      split_ifs <;> first | rfl | simp_all
  refine ⟨main, fun s => ⟨?_, ?_, ?_⟩⟩
  · exact (main s defaultScale "2.5B" (by decide)).trans (by decide)
  · exact (main s defaultScale "3.1m" (by decide)).trans (by decide)
  · exact (main s defaultScale "45K" (by decide)).trans (by decide)

/-- C8 witness: scale-independence at the token `2.5B` between the
thousands and billions scales. -/
theorem C8_witness :
    parseNumber { unit := "thousands", multiplier := 1000 } "2.5B" =
      parseNumber { unit := "billions", multiplier := 1000000000 } "2.5B" :=
  C8_suffix_ignores_scale.1 _ _ "2.5B" (by decide)

/-- C9: the overall extraction confidence equals
round(100 × achievedWeight / 27) − min(20, 5 × warningCount) clamped to
[0, 100], with the five critical fields weighing 3, the four important
fields 2 and the four optional fields 1; all thirteen fields present with
no warnings scores exactly 100, all absent exactly 0. -/
theorem C9_confidence_formula :
    (∀ (f : Financials) (w : List String),
      calculateConfidence f w =
        max 0 (min 100 ((jsRound (100 *
          ((if f.revenues.total.isSome then (3 : ℚ) else 0) +
           (if f.income.net_income.isSome then 3 else 0) +
           (if f.assets.total.isSome then 3 else 0) +
           (if f.liabilities.total.isSome then 3 else 0) +
           (if f.equity.total.isSome then 3 else 0) +
           (if f.income.operating_income.isSome then 2 else 0) +
           (if f.revenues.gross_profit.isSome then 2 else 0) +
           (if f.assets.cash.isSome then 2 else 0) +
           (if f.cash_flow.operating.isSome then 2 else 0) +
           (if f.expenses.research_development.isSome then 1 else 0) +
           (if f.expenses.sales_marketing.isSome then 1 else 0) +
           (if f.cash_flow.capex.isSome then 1 else 0) +
           (if f.assets.marketable_securities.isSome then 1 else 0)) / 27) : ℚ) -
          min 20 (5 * (w.length : ℚ))))) ∧
    calculateConfidence fullFinancials [] = 100 ∧
    calculateConfidence emptyFinancials [] = 0 := by
  refine ⟨fun f w => ?_, by decide, by decide⟩
  unfold calculateConfidence
  simp only [List.map_cons, List.map_nil, List.sum_cons, List.sum_nil,
             List.length_cons, List.length_nil]
  rw [min_comm ((w.length : ℚ) * 5) 20, mul_comm ((w.length : ℚ)) 5]
  congr 2
  unfold jsRound
  congr 2
  congr 1
  push_cast
  ring1

/-- C10: every extraction result the text-based strategy produces has a
strictly positive value: the token handed to `parseNumber` is rebuilt from
a capture that can contain neither a minus sign nor a closing parenthesis,
so accounting negatives lose their sign in pure-text extraction. -/
theorem C10_text_candidates_positive (scale : DocScale) (raw : String)
    (patterns : List RE) (minV maxV : ℚ) (r : ExtractionResult)
    (hscale : 0 < scale.multiplier)
    (h : r ∈ extractFromText scale raw patterns minV maxV) :
    0 < r.value :=
  (extractFromText_mem h).2 hscale

set_option maxRecDepth 100000 in
set_option maxHeartbeats 2000000 in
/-- C10 witness: positivity at the concrete candidate extracted from
`Total assets $100,000`. -/
theorem C10_witness : 0 < textCandidateBig.value :=
  C10_text_candidates_positive defaultScale rawAssetsLine totalAssetsPatterns
    5000000000 1000000000000 textCandidateBig (by decide) (by decide)

end Analyst
